import Mathlib

set_option linter.unusedVariables false

/-!
Verification development for the Game Boy emulator core (gb-emu).

Shallow embedding of the Rust sources:
  * `src/src/opcodes/mod.rs`          — the base and extended opcode tables;
  * `src/src/ppu.rs`                  — the picture processing unit;
  * `src/lib/core/src/apu/apu.rs`     — APU frame sequencer;
  * `src/lib/core/src/apu/channels/channel.rs` — generic channel logic;
  * `src/lib/core/src/apu/channels/noise.rs`   — channel 4 noise generator;
  * `src/lib/core/src/emulator_core.rs` and `src/lib/core/src/gameboy.rs`
                                      — the stepping / run_frame flows.

Machine integers are modelled as `Nat` with explicit `% 256` (resp. other
moduli) exactly where the Rust code relies on wrapping behaviour.
Fallible or panicking code is modelled with explicit outcome types.
-/

/-! ### Bit utilities (crate::utils)

`get_bit` / `change_bit` mirror the helpers from the core's `utils` module:
`get_bit v b` tests bit `b` of `v`; `change_bit v b s` sets or clears bit `b`
of a byte value. -/

/-- Test a single bit of a value (utils::get_bit). -/
def get_bit (v : Nat) (b : Nat) : Bool :=
  Nat.testBit v b

/-- Set or clear bit `b` of a byte value (utils::change_bit). -/
def change_bit (v : Nat) (b : Nat) (s : Bool) : Nat :=
  if s then v ||| (1 <<< b) else v &&& (0xff ^^^ (1 <<< b))

/-- Bool value as a single bit flag at position `b` (utils::as_bit_flag). -/
def as_bit_flag (v : Bool) (b : Nat) : Nat :=
  if v then 1 <<< b else 0

/-- Wrapping 8-bit addition. -/
def wadd8 (a b : Nat) : Nat := (a + b) % 256

/-- Wrapping 8-bit subtraction. -/
def wsub8 (a b : Nat) : Nat := (a + 256 - b % 256) % 256

/-! ### Opcode table (src/src/opcodes/mod.rs)

Each Rust `OpCode` entry carries a mnemonic, a byte length, baseline cycles
and a function pointer. The function pointer is embedded as the name of the
Rust handler symbol (`proc`); the body of `OPCODE_INVALID`'s closure, which
is present in the source, is embedded separately as `opcode_invalid_proc`. -/

/-- Outcome of running a Rust function that can panic: either a normally
returned updated state, or a panic. -/
inductive RustOutcome (α : Type) where
  | ok (a : α)
  | panicked
  deriving DecidableEq

/-- An entry of the opcode tables: mnemonic, instruction length in bytes,
baseline T-cycles, and the handler the entry dispatches to (identified by
the Rust function symbol stored in the `proc` field of the source). -/
structure OpCode where
  name : String
  bytes : Nat
  cycles : Nat
  proc : String
  deriving DecidableEq

/-- The invalid-opcode placeholder entry (`OPCODE_INVALID`). Its `proc`
field in the source is the anonymous closure `|gb| { panic!(); }`, embedded
here as `opcode_invalid_proc`. -/
def OPCODE_INVALID : OpCode :=
  OpCode.mk "[INVALID]" 1 0 "opcode_invalid_proc"

/-- The body of `OPCODE_INVALID`'s handler closure: it panics for every
machine state, returning no successor state and raising no event. -/
def opcode_invalid_proc {GB : Type} (gb : GB) : RustOutcome GB :=
  RustOutcome.panicked

set_option maxHeartbeats 1000000 in
/-- The base opcode table (`OPCODE_TABLE`); index = numerical opcode value. -/
def OPCODE_TABLE : List OpCode := [
  /- 0x00 -/ OpCode.mk "NOP" 1 0 "nop",
  /- 0x01 -/ OpCode.mk "LD BC, ${x16}" 3 12 "ld_bc_u16",
  /- 0x02 -/ OpCode.mk "LD (BC), A" 1 8 "ld_bcptr_a",
  /- 0x03 -/ OpCode.mk "INC BC" 1 8 "inc_bc",
  /- 0x04 -/ OpCode.mk "INC B" 1 4 "inc_b",
  /- 0x05 -/ OpCode.mk "DEC B" 1 4 "dec_b",
  /- 0x06 -/ OpCode.mk "LD B, ${x8}" 2 8 "ld_b_u8",
  /- 0x07 -/ OpCode.mk "RLC A" 1 4 "rlc_a",
  /- 0x08 -/ OpCode.mk "LD (${x16}), SP" 3 20 "ld_u16ptr_sp",
  /- 0x09 -/ OpCode.mk "ADD HL, BC" 1 8 "add_hl_bc",
  /- 0x0A -/ OpCode.mk "LD A, (BC)" 1 8 "ld_a_bcptr",
  /- 0x0B -/ OpCode.mk "DEC BC" 1 8 "dec_bc",
  /- 0x0C -/ OpCode.mk "INC C" 1 4 "inc_c",
  /- 0x0D -/ OpCode.mk "DEC C" 1 4 "dec_c",
  /- 0x0E -/ OpCode.mk "LD C, ${x8}" 2 8 "ld_c_u8",
  /- 0x0F -/ OpCode.mk "RRC A" 1 4 "rrc_a",
  /- 0x10 -/ OpCode.mk "STOP" 1 4 "stop",
  /- 0x11 -/ OpCode.mk "LD DE, ${x16}" 3 12 "ld_de_u16",
  /- 0x12 -/ OpCode.mk "LD (DE), A" 1 8 "ld_deptr_a",
  /- 0x13 -/ OpCode.mk "INC DE" 1 8 "inc_de",
  /- 0x14 -/ OpCode.mk "INC D" 1 4 "inc_d",
  /- 0x15 -/ OpCode.mk "DEC D" 1 4 "dec_d",
  /- 0x16 -/ OpCode.mk "LD D, ${x8}" 2 8 "ld_d_u8",
  /- 0x17 -/ OpCode.mk "RL A" 1 4 "rl_a",
  /- 0x18 -/ OpCode.mk "JR {i8}" 2 12 "jr_i8",
  /- 0x19 -/ OpCode.mk "ADD HL, DE" 1 8 "add_hl_de",
  /- 0x1A -/ OpCode.mk "LD A, (DE)" 1 8 "ld_a_deptr",
  /- 0x1B -/ OpCode.mk "DEC DE" 1 8 "dec_de",
  /- 0x1C -/ OpCode.mk "INC E" 1 4 "inc_e",
  /- 0x1D -/ OpCode.mk "DEC E" 1 4 "dec_e",
  /- 0x1E -/ OpCode.mk "LD E, ${x8}" 2 8 "ld_e_u8",
  /- 0x1F -/ OpCode.mk "RR A" 1 4 "rr_a",
  /- 0x20 -/ OpCode.mk "JR NZ, {i8}" 2 8 "jr_nz_i8",
  /- 0x21 -/ OpCode.mk "LD HL, ${x16}" 3 12 "ld_hl_u16",
  /- 0x22 -/ OpCode.mk "LD (HL+), A" 1 8 "ld_hlptri_a",
  /- 0x23 -/ OpCode.mk "INC HL" 1 8 "inc_hl",
  /- 0x24 -/ OpCode.mk "INC H" 1 4 "inc_h",
  /- 0x25 -/ OpCode.mk "DEC H" 1 4 "dec_h",
  /- 0x26 -/ OpCode.mk "LD H, ${x8}" 2 8 "ld_h_u8",
  /- 0x27 -/ OpCode.mk "DAA" 1 4 "daa",
  /- 0x28 -/ OpCode.mk "JR Z, {i8}" 2 8 "jr_z_i8",
  /- 0x29 -/ OpCode.mk "ADD HL, HL" 1 8 "add_hl_hl",
  /- 0x2A -/ OpCode.mk "LD A, (HL+)" 1 8 "ld_a_hlptri",
  /- 0x2B -/ OpCode.mk "DEC HL" 1 8 "dec_hl",
  /- 0x2C -/ OpCode.mk "INC L" 1 4 "inc_l",
  /- 0x2D -/ OpCode.mk "DEC L" 1 4 "dec_l",
  /- 0x2E -/ OpCode.mk "LD L, ${x8}" 2 8 "ld_l_u8",
  /- 0x2F -/ OpCode.mk "CPL" 1 4 "cpl_a",
  /- 0x30 -/ OpCode.mk "JR NC, {i8}" 2 8 "jr_nc_i8",
  /- 0x31 -/ OpCode.mk "LD SP, ${x16}" 3 12 "ld_sp_u16",
  /- 0x32 -/ OpCode.mk "LD (HL-), A" 1 8 "ld_hlptrd_a",
  /- 0x33 -/ OpCode.mk "INC SP" 1 8 "inc_sp",
  /- 0x34 -/ OpCode.mk "INC (HL)" 1 12 "inc_hlptr",
  /- 0x35 -/ OpCode.mk "DEC (HL)" 1 12 "dec_hlptr",
  /- 0x36 -/ OpCode.mk "LD (HL), ${x8}" 2 8 "ld_hlptr_u8",
  /- 0x37 -/ OpCode.mk "SCF" 1 4 "scf",
  /- 0x38 -/ OpCode.mk "JR C, {i8}" 2 8 "jr_c_i8",
  /- 0x39 -/ OpCode.mk "ADD HL, SP" 1 8 "add_hl_sp",
  /- 0x3A -/ OpCode.mk "LD A, (HL-)" 1 8 "ld_a_hlptrd",
  /- 0x3B -/ OpCode.mk "DEC SP" 1 8 "dec_sp",
  /- 0x3C -/ OpCode.mk "INC A" 1 4 "inc_a",
  /- 0x3D -/ OpCode.mk "DEC A" 1 4 "dec_a",
  /- 0x3E -/ OpCode.mk "LD A, ${x8}" 2 8 "ld_l_u8",
  /- 0x3F -/ OpCode.mk "CCF" 1 4 "ccf",
  /- 0x40 -/ OpCode.mk "LD B, B" 1 4 "ld_b_b",
  /- 0x41 -/ OpCode.mk "LD B, C" 1 4 "ld_b_c",
  /- 0x42 -/ OpCode.mk "LD B, D" 1 4 "ld_b_d",
  /- 0x43 -/ OpCode.mk "LD B, E" 1 4 "ld_b_e",
  /- 0x44 -/ OpCode.mk "LD B, H" 1 4 "ld_b_h",
  /- 0x45 -/ OpCode.mk "LD B, L" 1 4 "ld_b_l",
  /- 0x46 -/ OpCode.mk "LD B, (HL)" 1 8 "ld_b_hlptr",
  /- 0x47 -/ OpCode.mk "LD B, A" 1 4 "ld_b_a",
  /- 0x48 -/ OpCode.mk "LD C, B" 1 4 "ld_c_b",
  /- 0x49 -/ OpCode.mk "LD C, C" 1 4 "ld_c_c",
  /- 0x4A -/ OpCode.mk "LD C, D" 1 4 "ld_c_d",
  /- 0x4B -/ OpCode.mk "LD C, E" 1 4 "ld_c_e",
  /- 0x4C -/ OpCode.mk "LD C, H" 1 4 "ld_c_h",
  /- 0x4D -/ OpCode.mk "LD C, L" 1 4 "ld_c_l",
  /- 0x4E -/ OpCode.mk "LD C, (HL)" 1 8 "ld_c_hlptr",
  /- 0x4F -/ OpCode.mk "LD C, A" 1 4 "ld_c_a",
  /- 0x50 -/ OpCode.mk "LD D, B" 1 4 "ld_d_b",
  /- 0x51 -/ OpCode.mk "LD D, C" 1 4 "ld_d_c",
  /- 0x52 -/ OpCode.mk "LD D, D" 1 4 "ld_d_d",
  /- 0x53 -/ OpCode.mk "LD D, E" 1 4 "ld_d_e",
  /- 0x54 -/ OpCode.mk "LD D, H" 1 4 "ld_d_h",
  /- 0x55 -/ OpCode.mk "LD D, L" 1 4 "ld_d_l",
  /- 0x56 -/ OpCode.mk "LD D, (HL)" 1 8 "ld_d_hlptr",
  /- 0x57 -/ OpCode.mk "LD D, A" 1 4 "ld_d_a",
  /- 0x58 -/ OpCode.mk "LD E, B" 1 4 "ld_e_b",
  /- 0x59 -/ OpCode.mk "LD E, C" 1 4 "ld_e_c",
  /- 0x5A -/ OpCode.mk "LD E, D" 1 4 "ld_e_d",
  /- 0x5B -/ OpCode.mk "LD E, E" 1 4 "ld_e_e",
  /- 0x5C -/ OpCode.mk "LD E, H" 1 4 "ld_e_h",
  /- 0x5D -/ OpCode.mk "LD E, L" 1 4 "ld_e_l",
  /- 0x5E -/ OpCode.mk "LD E, (HL)" 1 8 "ld_e_hlptr",
  /- 0x5F -/ OpCode.mk "LD E, A" 1 4 "ld_e_a",
  /- 0x60 -/ OpCode.mk "LD H, B" 1 4 "ld_h_b",
  /- 0x61 -/ OpCode.mk "LD H, C" 1 4 "ld_h_c",
  /- 0x62 -/ OpCode.mk "LD H, D" 1 4 "ld_h_d",
  /- 0x63 -/ OpCode.mk "LD H, E" 1 4 "ld_h_e",
  /- 0x64 -/ OpCode.mk "LD H, H" 1 4 "ld_h_h",
  /- 0x65 -/ OpCode.mk "LD H, L" 1 4 "ld_h_l",
  /- 0x66 -/ OpCode.mk "LD H, (HL)" 1 8 "ld_h_hlptr",
  /- 0x67 -/ OpCode.mk "LD H, A" 1 4 "ld_h_a",
  /- 0x68 -/ OpCode.mk "LD L, B" 1 4 "ld_l_b",
  /- 0x69 -/ OpCode.mk "LD L, C" 1 4 "ld_l_c",
  /- 0x6A -/ OpCode.mk "LD L, D" 1 4 "ld_l_d",
  /- 0x6B -/ OpCode.mk "LD L, E" 1 4 "ld_l_e",
  /- 0x6C -/ OpCode.mk "LD L, H" 1 4 "ld_l_h",
  /- 0x6D -/ OpCode.mk "LD L, L" 1 4 "ld_l_l",
  /- 0x6E -/ OpCode.mk "LD L, (HL)" 1 8 "ld_l_hlptr",
  /- 0x6F -/ OpCode.mk "LD L, A" 1 4 "ld_l_a",
  /- 0x70 -/ OpCode.mk "LD (HL), B" 1 8 "ld_hlptr_b",
  /- 0x71 -/ OpCode.mk "LD (HL), C" 1 8 "ld_hlptr_c",
  /- 0x72 -/ OpCode.mk "LD (HL), D" 1 8 "ld_hlptr_d",
  /- 0x73 -/ OpCode.mk "LD (HL), E" 1 8 "ld_hlptr_e",
  /- 0x74 -/ OpCode.mk "LD (HL), H" 1 8 "ld_hlptr_h",
  /- 0x75 -/ OpCode.mk "LD (HL), L" 1 8 "ld_hlptr_l",
  /- 0x76 -/ OpCode.mk "HALT" 1 4 "halt",
  /- 0x77 -/ OpCode.mk "LD (HL), A" 1 8 "ld_hlptr_a",
  /- 0x78 -/ OpCode.mk "LD A, B" 1 4 "ld_a_b",
  /- 0x79 -/ OpCode.mk "LD A, C" 1 4 "ld_a_c",
  /- 0x7A -/ OpCode.mk "LD A, D" 1 4 "ld_a_d",
  /- 0x7B -/ OpCode.mk "LD A, E" 1 4 "ld_a_e",
  /- 0x7C -/ OpCode.mk "LD A, H" 1 4 "ld_a_h",
  /- 0x7D -/ OpCode.mk "LD A, L" 1 4 "ld_a_l",
  /- 0x7E -/ OpCode.mk "LD A, (HL)" 1 8 "ld_a_hlptr",
  /- 0x7F -/ OpCode.mk "LD A, A" 1 4 "ld_a_a",
  /- 0x80 -/ OpCode.mk "ADD A, B" 1 4 "add_a_b",
  /- 0x81 -/ OpCode.mk "ADD A, C" 1 4 "add_a_c",
  /- 0x82 -/ OpCode.mk "ADD A, D" 1 4 "add_a_d",
  /- 0x83 -/ OpCode.mk "ADD A, E" 1 4 "add_a_e",
  /- 0x84 -/ OpCode.mk "ADD A, H" 1 4 "add_a_h",
  /- 0x85 -/ OpCode.mk "ADD A, L" 1 4 "add_a_l",
  /- 0x86 -/ OpCode.mk "ADD A, (HL)" 1 8 "add_a_hlptr",
  /- 0x87 -/ OpCode.mk "ADD A, A" 1 4 "add_a_a",
  /- 0x88 -/ OpCode.mk "ADC A, B" 1 4 "adc_a_b",
  /- 0x89 -/ OpCode.mk "ADC A, C" 1 4 "adc_a_c",
  /- 0x8A -/ OpCode.mk "ADC A, D" 1 4 "adc_a_d",
  /- 0x8B -/ OpCode.mk "ADC A, E" 1 4 "adc_a_e",
  /- 0x8C -/ OpCode.mk "ADC A, H" 1 4 "adc_a_h",
  /- 0x8D -/ OpCode.mk "ADC A, L" 1 4 "adc_a_l",
  /- 0x8E -/ OpCode.mk "ADC A, (HL)" 1 8 "adc_a_hlptr",
  /- 0x8F -/ OpCode.mk "ADC A, A" 1 4 "adc_a_a",
  /- 0x90 -/ OpCode.mk "SUB A, B" 1 4 "sub_a_b",
  /- 0x91 -/ OpCode.mk "SUB A, C" 1 4 "sub_a_c",
  /- 0x92 -/ OpCode.mk "SUB A, D" 1 4 "sub_a_d",
  /- 0x93 -/ OpCode.mk "SUB A, E" 1 4 "sub_a_e",
  /- 0x94 -/ OpCode.mk "SUB A, H" 1 4 "sub_a_h",
  /- 0x95 -/ OpCode.mk "SUB A, L" 1 4 "sub_a_l",
  /- 0x96 -/ OpCode.mk "SUB A, (HL)" 1 8 "sub_a_hlptr",
  /- 0x97 -/ OpCode.mk "SUB A, A" 1 4 "sub_a_a",
  /- 0x98 -/ OpCode.mk "SBC A, B" 1 4 "sbc_a_b",
  /- 0x99 -/ OpCode.mk "SBC A, C" 1 4 "sbc_a_c",
  /- 0x9A -/ OpCode.mk "SBC A, D" 1 4 "sbc_a_d",
  /- 0x9B -/ OpCode.mk "SBC A, E" 1 4 "sbc_a_e",
  /- 0x9C -/ OpCode.mk "SBC A, H" 1 4 "sbc_a_h",
  /- 0x9D -/ OpCode.mk "SBC A, L" 1 4 "sbc_a_l",
  /- 0x9E -/ OpCode.mk "SBC A, (HL)" 1 8 "sbc_a_hlptr",
  /- 0x9F -/ OpCode.mk "SBC A, A" 1 4 "sbc_a_a",
  /- 0xA0 -/ OpCode.mk "AND A, B" 1 4 "and_a_b",
  /- 0xA1 -/ OpCode.mk "AND A, C" 1 4 "and_a_c",
  /- 0xA2 -/ OpCode.mk "AND A, D" 1 4 "and_a_d",
  /- 0xA3 -/ OpCode.mk "AND A, E" 1 4 "and_a_e",
  /- 0xA4 -/ OpCode.mk "AND A, H" 1 4 "and_a_h",
  /- 0xA5 -/ OpCode.mk "AND A, L" 1 4 "and_a_l",
  /- 0xA6 -/ OpCode.mk "AND A, (HL)" 1 8 "and_a_hlptr",
  /- 0xA7 -/ OpCode.mk "AND A, A" 1 4 "and_a_a",
  /- 0xA8 -/ OpCode.mk "XOR A, B" 1 4 "xor_a_b",
  /- 0xA9 -/ OpCode.mk "XOR A, C" 1 4 "xor_a_c",
  /- 0xAA -/ OpCode.mk "XOR A, D" 1 4 "xor_a_d",
  /- 0xAB -/ OpCode.mk "XOR A, E" 1 4 "xor_a_e",
  /- 0xAC -/ OpCode.mk "XOR A, H" 1 4 "xor_a_h",
  /- 0xAD -/ OpCode.mk "XOR A, L" 1 4 "xor_a_l",
  /- 0xAE -/ OpCode.mk "XOR A, (HL)" 1 8 "xor_a_hlptr",
  /- 0xAF -/ OpCode.mk "XOR A, A" 1 4 "xor_a_a",
  /- 0xB0 -/ OpCode.mk "OR A, B" 1 4 "or_a_b",
  /- 0xB1 -/ OpCode.mk "OR A, C" 1 4 "or_a_c",
  /- 0xB2 -/ OpCode.mk "OR A, D" 1 4 "or_a_d",
  /- 0xB3 -/ OpCode.mk "OR A, E" 1 4 "or_a_e",
  /- 0xB4 -/ OpCode.mk "OR A, H" 1 4 "or_a_h",
  /- 0xB5 -/ OpCode.mk "OR A, L" 1 4 "or_a_l",
  /- 0xB6 -/ OpCode.mk "OR A, (HL)" 1 8 "or_a_hlptr",
  /- 0xB7 -/ OpCode.mk "OR A, A" 1 4 "or_a_a",
  /- 0xB8 -/ OpCode.mk "CP A, B" 1 4 "cp_a_b",
  /- 0xB9 -/ OpCode.mk "CP A, C" 1 4 "cp_a_c",
  /- 0xBA -/ OpCode.mk "CP A, D" 1 4 "cp_a_d",
  /- 0xBB -/ OpCode.mk "CP A, E" 1 4 "cp_a_e",
  /- 0xBC -/ OpCode.mk "CP A, H" 1 4 "cp_a_h",
  /- 0xBD -/ OpCode.mk "CP A, L" 1 4 "cp_a_l",
  /- 0xBE -/ OpCode.mk "CP A, (HL)" 1 8 "cp_a_hlptr",
  /- 0xBF -/ OpCode.mk "CP A, A" 1 4 "cp_a_a",
  /- 0xC0 -/ OPCODE_INVALID,
  /- 0xC1 -/ OPCODE_INVALID,
  /- 0xC2 -/ OpCode.mk "JP NZ, 0x{x16}" 3 12 "jp_nz_u16",
  /- 0xC3 -/ OpCode.mk "JP 0x{x16}" 3 12 "jp_u16",
  /- 0xC4 -/ OPCODE_INVALID,
  /- 0xC5 -/ OPCODE_INVALID,
  /- 0xC6 -/ OpCode.mk "ADD A, {u8}" 2 8 "add_a_u8",
  /- 0xC7 -/ OPCODE_INVALID,
  /- 0xC8 -/ OPCODE_INVALID,
  /- 0xC9 -/ OPCODE_INVALID,
  /- 0xCA -/ OpCode.mk "JP Z, 0x{x16}" 3 12 "jp_z_u16",
  /- 0xCB -/ OPCODE_INVALID,
  /- 0xCC -/ OPCODE_INVALID,
  /- 0xCD -/ OPCODE_INVALID,
  /- 0xCE -/ OpCode.mk "ADC A, {u8}" 2 8 "adc_a_u8",
  /- 0xCF -/ OPCODE_INVALID,
  /- 0xD0 -/ OPCODE_INVALID,
  /- 0xD1 -/ OPCODE_INVALID,
  /- 0xD2 -/ OpCode.mk "JP NC, 0x{x16}" 3 12 "jp_nc_u16",
  /- 0xD3 -/ OPCODE_INVALID,
  /- 0xD4 -/ OPCODE_INVALID,
  /- 0xD5 -/ OPCODE_INVALID,
  /- 0xD6 -/ OpCode.mk "SUB A, {u8}" 2 8 "sub_a_u8",
  /- 0xD7 -/ OPCODE_INVALID,
  /- 0xD8 -/ OPCODE_INVALID,
  /- 0xD9 -/ OPCODE_INVALID,
  /- 0xDA -/ OpCode.mk "JP C, 0x{x16}" 3 12 "jp_c_u16",
  /- 0xDB -/ OPCODE_INVALID,
  /- 0xDC -/ OPCODE_INVALID,
  /- 0xDD -/ OPCODE_INVALID,
  /- 0xDE -/ OpCode.mk "SBC A, {u8}" 2 8 "sbc_a_u8",
  /- 0xDF -/ OPCODE_INVALID,
  /- 0xE0 -/ OpCode.mk "LDH $ff{x8}, A" 2 12 "ldh_u8_a",
  /- 0xE1 -/ OPCODE_INVALID,
  /- 0xE2 -/ OPCODE_INVALID,
  /- 0xE3 -/ OPCODE_INVALID,
  /- 0xE4 -/ OPCODE_INVALID,
  /- 0xE5 -/ OPCODE_INVALID,
  /- 0xE6 -/ OpCode.mk "AND A, ${x8}" 2 8 "and_a_u8",
  /- 0xE7 -/ OPCODE_INVALID,
  /- 0xE8 -/ OPCODE_INVALID,
  /- 0xE9 -/ OPCODE_INVALID,
  /- 0xEA -/ OpCode.mk "LD (${x16}), A" 3 16 "ld_u16ptr_a",
  /- 0xEB -/ OPCODE_INVALID,
  /- 0xEC -/ OPCODE_INVALID,
  /- 0xED -/ OPCODE_INVALID,
  /- 0xEE -/ OpCode.mk "XOR A, ${x8}" 2 8 "xor_a_u8",
  /- 0xEF -/ OPCODE_INVALID,
  /- 0xF0 -/ OpCode.mk "LDH A, $ff{x8}" 2 12 "ldh_a_u8",
  /- 0xF1 -/ OPCODE_INVALID,
  /- 0xF2 -/ OPCODE_INVALID,
  /- 0xF3 -/ OpCode.mk "DI" 1 4 "disable_interrupts",
  /- 0xF4 -/ OPCODE_INVALID,
  /- 0xF5 -/ OPCODE_INVALID,
  /- 0xF6 -/ OpCode.mk "OR A, ${x8}" 2 8 "or_a_u8",
  /- 0xF7 -/ OPCODE_INVALID,
  /- 0xF8 -/ OPCODE_INVALID,
  /- 0xF9 -/ OPCODE_INVALID,
  /- 0xFA -/ OpCode.mk "LD A, (${x16})" 3 16 "ld_a_u16ptr",
  /- 0xFB -/ OpCode.mk "EI" 1 4 "enable_interrupts",
  /- 0xFC -/ OPCODE_INVALID,
  /- 0xFD -/ OPCODE_INVALID,
  /- 0xFE -/ OpCode.mk "CP A, ${x8}" 2 8 "cp_a_u8",
  /- 0xFF -/ OPCODE_INVALID
]

/-- Look up an entry of the base opcode table by opcode value. -/
def opcode_at (op : Nat) : OpCode :=
  List.getD OPCODE_TABLE op OPCODE_INVALID

/-- Modelled from the spec: the semantics of the `ld_l_u8` handler from the
missing `opcodes_ld.rs`, as named by its mnemonic at table entry 0x2E
("LD L, ${x8}"): load the fetched immediate byte into register L, leaving
the other registers unchanged. Only registers A and L are tracked here. -/
structure LdRegs where
  a : Nat
  l : Nat
  deriving DecidableEq

/-- Modelled from the spec: `ld_l_u8` writes the immediate into L. -/
def ld_l_u8_run (regs : LdRegs) (imm : Nat) : LdRegs :=
  { regs with l := imm % 256 }

/-! ### PPU (src/src/ppu.rs)

The `Ppu` owns a handle into shared memory (`MemoryReadWriteHandle`); the
memory view and the accumulated interrupt requests are folded into the
`Ppu` state and updated by explicit state passing. Register addresses are
the standard Game Boy I/O locations referenced by name in the source
(`crate::memory`, whose module is not part of the visible sources). -/

def SCREEN_W : Nat := 160

def SCREEN_H : Nat := 144

def SCREEN_PIXELS : Nat := SCREEN_W * SCREEN_H

def CPU_CYCLES_PER_LINE : Nat := 456

def CPU_CYCLES_PER_FRAME : Nat := 70224

def MEMORY_LOCATION_LCD_CONTROL : Nat := 0xff40

def MEMORY_LOCATION_LCD_STATUS : Nat := 0xff41

def MEMORY_LOCATION_SCY : Nat := 0xff42

def MEMORY_LOCATION_SCX : Nat := 0xff43

def MEMORY_LOCATION_LY : Nat := 0xff44

def MEMORY_LOCATION_LYC : Nat := 0xff45

def MEMORY_LOCATION_PALETTE_BG : Nat := 0xff47

def MEMORY_LOCATION_PALETTE_OBP0 : Nat := 0xff48

def MEMORY_LOCATION_PALETTE_OBP1 : Nat := 0xff49

def MEMORY_LOCATION_WY : Nat := 0xff4a

def MEMORY_LOCATION_WX : Nat := 0xff4b

def MEMORY_LOCATION_OAM_BEGIN : Nat := 0xfe00

/-- The LCD buffer content: `[u8; SCREEN_PIXELS]`, addressed by flat index.
Indices outside `0 .. SCREEN_PIXELS` are never produced by in-bounds callers. -/
structure LcdBuffer where
  pixels : Nat → Nat

/-- `LcdBuffer::alloc`: all pixels zero. -/
def LcdBuffer.alloc : LcdBuffer :=
  ⟨fun _ => 0x00⟩

/-- `LcdBuffer::get_pixel`. -/
def LcdBuffer.get_pixel (b : LcdBuffer) (x y : Nat) : Nat :=
  b.pixels (x + y * SCREEN_W)

/-- `LcdBuffer::set_pixel`: stores `value & 0x03`. -/
def LcdBuffer.set_pixel (b : LcdBuffer) (x y value : Nat) : LcdBuffer :=
  ⟨fun i => if i = x + y * SCREEN_W then value &&& 0x03 else b.pixels i⟩

/-- Interrupts requested by the PPU (crate::cpu::Interrupt, the two kinds
the PPU raises). -/
inductive Interrupt where
  | VBlank
  | LcdStat
  deriving DecidableEq

/-- PPU mode (ppu::Mode), with its `as u8` discriminants 0..3. -/
inductive Mode where
  | HBlank
  | VBlank
  | OamScan
  | DrawLine
  deriving DecidableEq

/-- The numeric value of a mode (`self.mode as u8`). -/
def Mode.toU8 : Mode → Nat
  | .HBlank => 0
  | .VBlank => 1
  | .OamScan => 2
  | .DrawLine => 3

/-- `ppu::FrameState`. -/
inductive FrameState where
  | Processing
  | FrameCompleted
  deriving DecidableEq

/-- `ppu::TileSet`. -/
inductive TileSet where
  | H8000
  | H8800
  deriving DecidableEq

/-- `TileSet::by_select_bit`. -/
def TileSet.by_select_bit (bit : Bool) : TileSet :=
  match bit with
  | false => TileSet.H8800
  | true => TileSet.H8000

/-- `TileSet::address_of_tile` (u16 arithmetic; the H8800 expression never
underflows since `0x9000 + (t << 4) ≥ (t & 0x80) << 5`). -/
def TileSet.address_of_tile (ts : TileSet) (tile : Nat) : Nat :=
  let tile_u16 := tile % 256
  match ts with
  | TileSet.H8000 => 0x8000 + (tile_u16 <<< 4)
  | TileSet.H8800 => 0x9000 + (tile_u16 <<< 4) - ((tile_u16 &&& 0x80) <<< 5)

/-- `ppu::TileMap`. -/
inductive TileMap where
  | H9800
  | H9C00
  deriving DecidableEq

/-- `TileMap::by_select_bit`. -/
def TileMap.by_select_bit (bit : Bool) : TileMap :=
  match bit with
  | false => TileMap.H9800
  | true => TileMap.H9C00

/-- `TileMap::base_address`. -/
def TileMap.base_address : TileMap → Nat
  | TileMap.H9800 => 0x9800
  | TileMap.H9C00 => 0x9c00

/-- A sprite OAM entry (ppu::Sprite); all four fields are bytes. -/
structure Sprite where
  pos_y : Nat
  pos_x : Nat
  tile : Nat
  flags : Nat
  deriving DecidableEq

/-- `Sprite::empty`. -/
def Sprite.empty : Sprite :=
  ⟨0, 0, 0, 0⟩

/-- `Sprite::from_address`, reading four bytes from memory. -/
def Sprite.from_address (read : Nat → Nat) (address : Nat) : Sprite :=
  { pos_y := read (address + 0) % 256
    pos_x := read (address + 1) % 256
    tile := read (address + 2) % 256
    flags := read (address + 3) % 256 }

/-- `Sprite::from_oam`. -/
def Sprite.from_oam (read : Nat → Nat) (index : Nat) : Sprite :=
  Sprite.from_address read (MEMORY_LOCATION_OAM_BEGIN + index * 4)

/-- `Sprite::is_flip_x`. -/
def Sprite.is_flip_x (s : Sprite) : Bool := get_bit s.flags 5

/-- `Sprite::is_flip_y`. -/
def Sprite.is_flip_y (s : Sprite) : Bool := get_bit s.flags 6

/-- `Sprite::get_palette`. -/
def Sprite.get_palette (s : Sprite) : Nat :=
  if get_bit s.flags 4 then 1 else 0

/-- `Sprite::is_bg_priority`. -/
def Sprite.is_bg_priority (s : Sprite) : Bool := get_bit s.flags 7

/-- Pixel data obtained from a sprite (ppu::SpritePixelData). -/
structure SpritePixelData where
  color_index : Nat
  palette_index : Nat
  deriving DecidableEq

/-- The data of a scanline (ppu::ScanlineData). The `sprites` array of
10 entries plus `sprites_found` counter is embedded as the list of the
`sprites_found` filled entries. -/
structure ScanlineData where
  line : Nat
  sprites : List Sprite
  window_enabled : Bool

/-- `ScanlineData::new`. -/
def ScanlineData.new : ScanlineData :=
  { line := 0, sprites := [], window_enabled := false }

/-- Number of sprites found (`sprites_found`). -/
def ScanlineData.sprites_found (sd : ScanlineData) : Nat :=
  sd.sprites.length

/-- The PPU state (ppu::Ppu), with the shared memory view (`mem`) and the
interrupts requested through it folded in as explicit state. -/
structure Ppu where
  clock : Nat
  mem_bytes : Nat → Nat
  irq_vblank : Bool
  irq_lcdstat : Bool
  mode : Mode
  ly : Nat
  current_line_pixel : Nat
  current_line_cycles : Nat
  current_scanline : ScanlineData
  window_line : Nat
  lcd_buffer : LcdBuffer

/-- `Ppu::new`. -/
def Ppu.new (mem : Nat → Nat) : Ppu :=
  { clock := 0
    mem_bytes := mem
    irq_vblank := false
    irq_lcdstat := false
    mode := Mode.OamScan
    ly := 0
    current_line_pixel := 0
    current_line_cycles := 0
    current_scanline := ScanlineData.new
    window_line := 0
    lcd_buffer := LcdBuffer.alloc }

/-- `mem.read_u8` through the PPU's memory handle. -/
def Ppu.read_u8 (p : Ppu) (a : Nat) : Nat :=
  p.mem_bytes a % 256

/-- `mem.write_u8` through the PPU's memory handle. -/
def Ppu.write_u8 (p : Ppu) (a v : Nat) : Ppu :=
  { p with mem_bytes := fun i => if i = a then v % 256 else p.mem_bytes i }

/-- `mem.request_interrupt` through the PPU's memory handle. -/
def Ppu.request_interrupt (p : Ppu) (i : Interrupt) : Ppu :=
  match i with
  | Interrupt.VBlank => { p with irq_vblank := true }
  | Interrupt.LcdStat => { p with irq_lcdstat := true }

/-- `Ppu::get_lcdc`. -/
def Ppu.get_lcdc (p : Ppu) : Nat := p.read_u8 MEMORY_LOCATION_LCD_CONTROL

/-- `Ppu::get_lcd_stat`. -/
def Ppu.get_lcd_stat (p : Ppu) : Nat := p.read_u8 MEMORY_LOCATION_LCD_STATUS

/-- `Ppu::get_scroll_x`. -/
def Ppu.get_scroll_x (p : Ppu) : Nat := p.read_u8 MEMORY_LOCATION_SCX

/-- `Ppu::get_scroll_y`. -/
def Ppu.get_scroll_y (p : Ppu) : Nat := p.read_u8 MEMORY_LOCATION_SCY

/-- `Ppu::get_window_x`. -/
def Ppu.get_window_x (p : Ppu) : Nat := p.read_u8 MEMORY_LOCATION_WX

/-- `Ppu::get_window_y`. -/
def Ppu.get_window_y (p : Ppu) : Nat := p.read_u8 MEMORY_LOCATION_WY

/-- `Ppu::screen_to_background`. -/
def Ppu.screen_to_background (p : Ppu) (screen_x screen_y : Nat) : Nat × Nat :=
  ((screen_x + p.get_scroll_x) &&& 0xff, (screen_y + p.get_scroll_y) &&& 0xff)

/-- `Ppu::read_sprite_pixel_from_address`. The shift amount `7 - x` is u8
arithmetic whose shift is masked (callers only pass `x ≤ 7`). -/
def Ppu.read_sprite_pixel_from_address (p : Ppu) (sprite_address x y : Nat) : Nat :=
  let sprite_line_address := sprite_address + y * 2
  let pixel_mask := (1 <<< (wsub8 7 x % 8)) % 256
  let byte0 := p.read_u8 (sprite_line_address + 0)
  let byte1 := p.read_u8 (sprite_line_address + 1)
  (if byte0 &&& pixel_mask ≠ 0 then 0x01 else 0x00)
    ||| (if byte1 &&& pixel_mask ≠ 0 then 0x02 else 0x00)

/-- `Ppu::read_sprite_pixel`. -/
def Ppu.read_sprite_pixel (p : Ppu) (tileset : TileSet) (sprite x y : Nat) : Nat :=
  p.read_sprite_pixel_from_address (tileset.address_of_tile sprite) x y

/-- `Ppu::read_tilemap_pixel`. -/
def Ppu.read_tilemap_pixel (p : Ppu) (tilemap : TileMap) (tileset : TileSet)
    (tilemap_x tilemap_y : Nat) : Nat :=
  let tile_x := tilemap_x / 8
  let tile_y := tilemap_y / 8
  let tile_pixel_x := tilemap_x % 8
  let tile_pixel_y := tilemap_y % 8
  let tile_index := tile_y * 32 + tile_x
  let tile_address := tilemap.base_address + tile_index
  let sprite := p.read_u8 tile_address
  p.read_sprite_pixel tileset sprite tile_pixel_x tile_pixel_y

/-- The sprite loop inside `Ppu::read_scanline_sprite_pixel`, walking the
previously found sprites in buffer order. -/
def Ppu.scanline_sprite_loop (p : Ppu) (sprite_h sprite_mask screen_x screen_y x : Nat)
    (pixel_background : Nat) : List Sprite → Option SpritePixelData
  | [] => none
  | sprite :: rest =>
    if screen_x < sprite.pos_x ∨ x ≥ sprite.pos_x then
      p.scanline_sprite_loop sprite_h sprite_mask screen_x screen_y x pixel_background rest
    else
      let sprite_pixel_x0 := screen_x - sprite.pos_x
      let sprite_pixel_y0 := wsub8 screen_y sprite.pos_y
      let sprite_pixel_x :=
        if sprite.is_flip_x then wsub8 (wsub8 8 sprite_pixel_x0) 1 else sprite_pixel_x0
      let sprite_pixel_y :=
        if sprite.is_flip_y then wsub8 (wsub8 sprite_h sprite_pixel_y0) 1 else sprite_pixel_y0
      let pixel := p.read_sprite_pixel TileSet.H8000 (sprite.tile &&& sprite_mask)
        sprite_pixel_x sprite_pixel_y
      if pixel = 0 ∨ (sprite.is_bg_priority ∧ pixel_background ≠ 0) then
        p.scanline_sprite_loop sprite_h sprite_mask screen_x screen_y x pixel_background rest
      else
        some { color_index := pixel, palette_index := sprite.get_palette }

/-- `Ppu::read_scanline_sprite_pixel`. -/
def Ppu.read_scanline_sprite_pixel (p : Ppu) (scanline : ScanlineData) (x : Nat)
    (pixel_background : Nat) : Option SpritePixelData :=
  let screen_x := x + 8
  let screen_y := scanline.line + 16
  let lcdc := p.get_lcdc
  let big_sprites := get_bit lcdc 2
  let sprite_h := if big_sprites then 16 else 8
  let sprite_mask := if big_sprites then 0xfe else 0xff
  p.scanline_sprite_loop sprite_h sprite_mask screen_x screen_y x pixel_background
    scanline.sprites

/-- The selection loop of `Ppu::do_oam_scan_for_line`: iterate the OAM
entries in index order starting at `idx` with `remaining` entries left,
append every accepted sprite and stop as soon as ten were collected. -/
def oam_scan_go (f : Nat → Sprite) (accept : Sprite → Bool) :
    Nat → Nat → List Sprite → List Sprite
  | _, 0, acc => acc
  | idx, r + 1, acc =>
    let sprite := f idx
    if accept sprite then
      let acc' := acc ++ [sprite]
      if acc'.length ≥ 10 then acc'
      else oam_scan_go f accept (idx + 1) r acc'
    else oam_scan_go f accept (idx + 1) r acc

/-- The acceptance test of the OAM scan: `pos_x > 0` and the sprite's
y-range intersects the scanline (u8 arithmetic, so `pos_y + sprite_h`
wraps at 256 like the Rust release build). -/
def oam_accepts (ly_plus_16 sprite_h : Nat) (s : Sprite) : Bool :=
  decide (s.pos_x > 0) && decide (ly_plus_16 ≥ s.pos_y)
    && decide (ly_plus_16 < wadd8 s.pos_y sprite_h)

/-- The comparison used to sort the found sprites: by `pos_x` ascending. -/
def spriteLe (a b : Sprite) : Prop :=
  a.pos_x ≤ b.pos_x

instance : DecidableRel spriteLe := fun a b => Nat.decLe a.pos_x b.pos_x

instance : IsTotal Sprite spriteLe := ⟨fun a b => Nat.le_total a.pos_x b.pos_x⟩

instance : IsTrans Sprite spriteLe := ⟨fun _ _ _ hab hbc => Nat.le_trans hab hbc⟩

/-- `Ppu::do_oam_scan_for_line`: enumerate the 40 OAM entries, select (at
most ten) accepted sprites, then sort the found sprites by x position
(`sort_by`, a stable sort, embedded as insertion sort). -/
def Ppu.do_oam_scan_for_line (p : Ppu) (line_number : Nat) : ScanlineData :=
  let lcdc := p.get_lcdc
  let big_sprites := get_bit lcdc 2
  let sprite_h := if big_sprites then 16 else 8
  let ly_plus_16 := wadd8 line_number 16
  let found := oam_scan_go (Sprite.from_oam p.mem_bytes)
    (oam_accepts ly_plus_16 sprite_h) 0 40 []
  { line := line_number
    sprites := found.insertionSort spriteLe
    window_enabled := false }

/-- `Ppu::enter_mode`: set the mode, mirror it into the low bits of the
LCD status byte and request the interrupts tied to the entered mode. -/
def Ppu.enter_mode (p : Ppu) (mode : Mode) : Ppu :=
  let p := { p with mode := mode }
  let lcd_stat := p.get_lcd_stat
  let lcd_stat := lcd_stat &&& 0b11111100
  let lcd_stat := lcd_stat ||| mode.toU8
  let p := p.write_u8 MEMORY_LOCATION_LCD_STATUS lcd_stat
  match mode with
  | Mode.HBlank =>
    if get_bit lcd_stat 3 then p.request_interrupt Interrupt.LcdStat else p
  | Mode.VBlank =>
    let p := if get_bit lcd_stat 4 then p.request_interrupt Interrupt.LcdStat else p
    p.request_interrupt Interrupt.VBlank
  | Mode.OamScan =>
    if get_bit lcd_stat 5 then p.request_interrupt Interrupt.LcdStat else p
  | _ => p

/-- `Ppu::on_new_frame`. -/
def Ppu.on_new_frame (p : Ppu) : Ppu :=
  { p with window_line := 0 }

/-- The first block of `Ppu::next_ly`: advance LY (wrapping from 153 to
0), progress the window line counter if the window was drawn in this
line, and publish the new LY value into memory. -/
def Ppu.next_ly_advance (p : Ppu) : Ppu :=
  let p := if p.ly = 153 then { p with ly := 0 } else { p with ly := p.ly + 1 }
  let p := if p.current_scanline.window_enabled then
    { p with window_line := p.window_line + 1 } else p
  p.write_u8 MEMORY_LOCATION_LY p.ly

/-- The coincidence block of `Ppu::next_ly`: compare LY against LYC,
update the coincidence flag in the LCD status byte and fire the LcdStat
interrupt when enabled. -/
def Ppu.next_ly_coincidence (p : Ppu) : Ppu :=
  let lyc := p.read_u8 MEMORY_LOCATION_LYC
  let coincidence := p.ly = lyc
  let lcd_stat := change_bit p.get_lcd_stat 2 (decide coincidence)
  let p := p.write_u8 MEMORY_LOCATION_LCD_STATUS lcd_stat
  if coincidence ∧ get_bit lcd_stat 6 then
    p.request_interrupt Interrupt.LcdStat else p

/-- `Ppu::next_ly`: advance LY, handle the LY=LYC coincidence, enter the
mode for the new line (OAM scan for 0..143, VBlank at 144, unchanged for
145..153) and report the completed frame when LY wrapped to 0. Returns
`none` exactly on the `unreachable!()` arm (LY ≥ 154 after the increment),
which aborts the process. -/
def Ppu.next_ly (p : Ppu) : Option (Ppu × FrameState) :=
  let p := p.next_ly_advance
  let p := p.next_ly_coincidence
  (if p.ly ≤ 143 then some (p.enter_mode Mode.OamScan)
   else if p.ly = 144 then some (p.enter_mode Mode.VBlank)
   else if p.ly ≤ 153 then some p
   else none).map (fun p =>
    if p.ly = 0 then (p.on_new_frame, FrameState.FrameCompleted)
    else (p, FrameState.Processing))

/-- `Ppu::process_oam_scan`. -/
def Ppu.process_oam_scan (p : Ppu) : Option (Ppu × FrameState) :=
  if p.clock > 80 then
    let p := { p with clock := p.clock - 80 }
    let p := { p with
      current_scanline := p.do_oam_scan_for_line p.ly
      current_line_pixel := 0
      current_line_cycles := 80 }
    some (p.enter_mode Mode.DrawLine, FrameState.Processing)
  else
    some (p, FrameState.Processing)

/-- The body of the pixel loop in `Ppu::process_draw_line`, for one pixel.
The register values read once before the loop are passed as arguments. -/
def Ppu.draw_pixel (bg_enabled window_enabled sprites_enabled : Bool) (tileset : TileSet)
    (palette_bg palette_obp0 palette_obp1 wx wy : Nat) (lcdc : Nat) (p : Ppu) : Ppu :=
  let p :=
    if bg_enabled ∧ (¬ p.current_scanline.window_enabled ∧ window_enabled
        ∧ p.current_line_pixel + 7 ≥ wx ∧ wy < SCREEN_H ∧ wy ≤ p.ly) then
      { p with current_scanline := { p.current_scanline with window_enabled := true } }
    else p
  let pixel_background :=
    if bg_enabled then
      if p.current_scanline.window_enabled then
        let window_tilemap := TileMap.by_select_bit (get_bit lcdc 6)
        let position_in_window_x := wsub8 (p.current_line_pixel + 7) wx
        let position_in_window_y := p.window_line
        p.read_tilemap_pixel window_tilemap tileset position_in_window_x position_in_window_y
      else
        let bg_tilemap := TileMap.by_select_bit (get_bit lcdc 3)
        let pos := p.screen_to_background p.current_line_pixel p.ly
        p.read_tilemap_pixel bg_tilemap tileset pos.1 pos.2
    else 0
  let sprite_data :=
    if sprites_enabled then
      p.read_scanline_sprite_pixel p.current_scanline p.current_line_pixel pixel_background
    else none
  let pair :=
    match sprite_data with
    | some sprite_pixel_data =>
      let sprite_palette :=
        if sprite_pixel_data.palette_index = 0 then palette_obp0 else palette_obp1
      (sprite_pixel_data.color_index, sprite_palette)
    | none => (pixel_background, palette_bg)
  let pixel_color := (pair.2 >>> (pair.1 <<< 1)) &&& 0x03
  let p := { p with
    lcd_buffer := p.lcd_buffer.set_pixel p.current_line_pixel p.ly pixel_color }
  { p with current_line_pixel := p.current_line_pixel + 1 }

/-- `Ppu::process_draw_line`. -/
def Ppu.process_draw_line (p : Ppu) : Option (Ppu × FrameState) :=
  let pixels_remaining := SCREEN_W - p.current_line_pixel
  let pixels_to_update := min (p.clock / 2) pixels_remaining
  if pixels_to_update = 0 then
    some (p, FrameState.Processing)
  else
    let cycles := pixels_to_update * 2
    let p := { p with
      current_line_cycles := p.current_line_cycles + cycles
      clock := p.clock - cycles }
    let lcdc := p.get_lcdc
    let body := Ppu.draw_pixel (get_bit lcdc 0) (get_bit lcdc 5) (get_bit lcdc 1)
      (TileSet.by_select_bit (get_bit lcdc 4))
      (p.read_u8 MEMORY_LOCATION_PALETTE_BG)
      (p.read_u8 MEMORY_LOCATION_PALETTE_OBP0)
      (p.read_u8 MEMORY_LOCATION_PALETTE_OBP1)
      p.get_window_x p.get_window_y lcdc
    let p := body^[pixels_to_update] p
    if p.current_line_pixel ≥ SCREEN_W then
      some (p.enter_mode Mode.HBlank, FrameState.Processing)
    else
      some (p, FrameState.Processing)

/-- `Ppu::process_hblank` (the u64 subtraction cannot underflow on states
reachable from `Ppu::new`, where `current_line_cycles ≤ 456`). -/
def Ppu.process_hblank (p : Ppu) : Option (Ppu × FrameState) :=
  let remaining_cycles := CPU_CYCLES_PER_LINE - p.current_line_cycles
  if p.clock ≥ remaining_cycles then
    Ppu.next_ly { p with clock := p.clock - remaining_cycles }
  else
    some (p, FrameState.Processing)

/-- `Ppu::process_vblank`. -/
def Ppu.process_vblank (p : Ppu) : Option (Ppu × FrameState) :=
  if p.clock ≥ CPU_CYCLES_PER_LINE then
    Ppu.next_ly { p with clock := p.clock - CPU_CYCLES_PER_LINE }
  else
    some (p, FrameState.Processing)

/-- `Ppu::update`: add the elapsed cycles to the internal clock and process
the current mode. -/
def Ppu.update (p : Ppu) (cycles : Nat) : Option (Ppu × FrameState) :=
  let p := { p with clock := p.clock + cycles }
  match p.mode with
  | Mode.OamScan => p.process_oam_scan
  | Mode.DrawLine => p.process_draw_line
  | Mode.HBlank => p.process_hblank
  | Mode.VBlank => p.process_vblank

/-! ### APU frame sequencer (src/lib/core/src/apu/apu.rs)

The frame sequencer drives the channels' subcomponents. The four channel
objects are abstracted into a state `γ` with the three tick operations the
sequencer invokes; everything else is transcribed from `Apu`. -/

def APU_UPDATE_PERIOD : Nat := 8192

/-- `apu::FrameSequencer`: the next step, stored in a u8 of which only the
low bits are read. -/
structure FrameSequencer where
  fs_next_step : Nat
  deriving DecidableEq

/-- `FrameSequencer::new`. -/
def FrameSequencer.new : FrameSequencer := ⟨0⟩

/-- `FrameSequencer::reset`. -/
def FrameSequencer.reset (fs : FrameSequencer) : FrameSequencer :=
  ⟨0⟩

/-- `FrameSequencer::increment` (`wrapping_add(1)` on a u8). -/
def FrameSequencer.increment (fs : FrameSequencer) : FrameSequencer :=
  ⟨wadd8 fs.fs_next_step 1⟩

/-- `FrameSequencer::is_length_timer_active`. -/
def FrameSequencer.is_length_timer_active (fs : FrameSequencer) : Bool :=
  (fs.fs_next_step &&& 0b0001) = 0

/-- `FrameSequencer::is_freq_sweep_active`. -/
def FrameSequencer.is_freq_sweep_active (fs : FrameSequencer) : Bool :=
  (fs.fs_next_step &&& 0b0011) = 0b010

/-- `FrameSequencer::is_volume_envelope_active`. -/
def FrameSequencer.is_volume_envelope_active (fs : FrameSequencer) : Bool :=
  (fs.fs_next_step &&& 0b0111) = 0b0111

/-- `Apu::next_frame_sequencer_step`, over an abstract channel-quad state
`γ` with the three tick operations: invoke the subcomponents whose gate is
active, then increment the sequencer. -/
def Apu.next_frame_sequencer_step {γ : Type} (tick_length tick_sweep tick_env : γ → γ)
    (fs : FrameSequencer) (chs : γ) : FrameSequencer × γ :=
  let chs := if fs.is_length_timer_active then tick_length chs else chs
  let chs := if fs.is_freq_sweep_active then tick_sweep chs else chs
  let chs := if fs.is_volume_envelope_active then tick_env chs else chs
  (fs.increment, chs)

/-- The `while` loop of `Apu::update_frame_sequencer`: as long as the frame
sequencer clock holds at least `APU_UPDATE_PERIOD` cycles, consume one
period and process the next sequencer step. -/
def Apu.fs_loop {γ : Type} (tick_length tick_sweep tick_env : γ → γ) :
    Nat → FrameSequencer → γ → Nat × FrameSequencer × γ
  | fs_clock, fs, chs =>
    if h : fs_clock ≥ APU_UPDATE_PERIOD then
      let fs_clock := fs_clock - APU_UPDATE_PERIOD
      let step := Apu.next_frame_sequencer_step tick_length tick_sweep tick_env fs chs
      Apu.fs_loop tick_length tick_sweep tick_env fs_clock step.1 step.2
    else
      (fs_clock, fs, chs)
  termination_by fs_clock _ _ => fs_clock
  decreasing_by simp only [APU_UPDATE_PERIOD] at h ⊢; omega

/-- `Apu::update_frame_sequencer`: add the elapsed cycles onto the frame
sequencer clock (`wrapping_add` on a u64) and run the period loop. -/
def Apu.update_frame_sequencer {γ : Type} (tick_length tick_sweep tick_env : γ → γ)
    (fs_clock : Nat) (fs : FrameSequencer) (chs : γ) (cycles : Nat) :
    Nat × FrameSequencer × γ :=
  Apu.fs_loop tick_length tick_sweep tick_env ((fs_clock + cycles) % 2 ^ 64) fs chs

/-! ### APU channel (src/lib/core/src/apu/channels/channel.rs)

`Channel<G, LEN, SWEEP, ENV>` holds the channel-enabled flag and a DAC.
The generator, length timer, frequency sweep and volume envelope are the
channel components; the actions they return on events are inputs here,
since their modules decide them. Only the enabled flags are tracked: the
claim under verification is about exactly those. -/

/-- The `TriggerActionSet` flag set (flagset of `TriggerAction`). -/
structure TriggerActionSet where
  none_action : Bool
  enable_dac : Bool
  disable_dac : Bool
  disable_channel : Bool
  deriving DecidableEq

/-- The empty action set (`Default::default()`). -/
def TriggerActionSet.empty : TriggerActionSet :=
  ⟨false, false, false, false⟩

/-- Union of two action sets (`|=`). -/
def TriggerActionSet.union (a b : TriggerActionSet) : TriggerActionSet :=
  ⟨a.none_action || b.none_action, a.enable_dac || b.enable_dac,
   a.disable_dac || b.disable_dac, a.disable_channel || b.disable_channel⟩

/-- `freq_sweep::FrequencySweepResult`. -/
inductive FrequencySweepResult where
  | Nothing
  | DisableChannel
  | FrequencyChanged (new_wave_length : Nat)
  deriving DecidableEq

/-- The enabled-state of an APU channel: the `channel_enabled` flag and the
`enabled` flag of its `DigitalAudioConverter`. -/
structure Channel where
  channel_enabled : Bool
  dac_enabled : Bool
  deriving DecidableEq

/-- Modelled from the spec: the initial DAC state of
`DigitalAudioConverter::new()` (module `apu/dac.rs`, not in the visible
sources). The boot register values enable the channel DACs, so the DAC
starts enabled. -/
def DigitalAudioConverter.new_enabled : Bool := true

/-- `Channel::new`: the channel starts enabled, with a fresh DAC. -/
def Channel.new : Channel :=
  { channel_enabled := true, dac_enabled := DigitalAudioConverter.new_enabled }

/-- `Channel::apply_actions`: enable the DAC, disable the DAC (which also
flags the channel for disabling) and disable the channel, returning the
set of actions actually applied. -/
def Channel.apply_actions (c : Channel) (actions : TriggerActionSet) :
    Channel × TriggerActionSet :=
  let c := if actions.enable_dac then { c with dac_enabled := true } else c
  let step :=
    if actions.disable_dac then
      ({ c with dac_enabled := false }, { actions with disable_channel := true })
    else (c, actions)
  let c := step.1
  let actions_applied := step.2
  let c := if actions_applied.disable_channel then { c with channel_enabled := false } else c
  (c, actions_applied)

/-- `Channel::fire_register_changed`: the components' responses (an input
here, decided by the component modules) are applied to the channel. -/
def Channel.fire_register_changed (c : Channel) (component_actions : TriggerActionSet) :
    Channel :=
  (c.apply_actions component_actions).1

/-- `Channel::fire_trigger_event` (NRx4 bit 7 written): enable the channel,
then apply the actions returned by the components. -/
def Channel.fire_trigger_event (c : Channel) (component_actions : TriggerActionSet) :
    Channel :=
  let c := { c with channel_enabled := true }
  (c.apply_actions component_actions).1

/-- `Channel::tick_length_timer`: on channels with the length-timer
feature, apply the action returned by `LengthTimer::tick`. -/
def Channel.tick_length_timer (c : Channel) (has_feature : Bool)
    (timer_action : TriggerActionSet) : Channel :=
  if has_feature then (c.apply_actions timer_action).1 else c

/-- `Channel::tick_freq_sweep`: on channels with the frequency sweep, a
`DisableChannel` result disables the channel; a changed frequency is
stored into the generator (not tracked here); otherwise nothing. -/
def Channel.tick_freq_sweep (c : Channel) (has_feature : Bool)
    (result : FrequencySweepResult) : Channel :=
  if has_feature then
    match result with
    | FrequencySweepResult.DisableChannel => { c with channel_enabled := false }
    | FrequencySweepResult.FrequencyChanged _ => c
    | FrequencySweepResult.Nothing => c
  else c

/-- `Channel::tick_envelope_sweep`: ticks the volume envelope only. -/
def Channel.tick_envelope_sweep (c : Channel) : Channel := c

/-- `Channel::update`: updates the generator only. -/
def Channel.update (c : Channel) (cycles : Nat) : Channel := c

/-- One event in the life of a channel: a register write, a trigger via
NRx4 bit 7, or a frame-sequencer tick. The action sets carried by the
events are the responses of the channel components. -/
inductive ChannelOp where
  | fire_register_changed (component_actions : TriggerActionSet)
  | fire_trigger_event (component_actions : TriggerActionSet)
  | tick_length_timer (has_feature : Bool) (timer_action : TriggerActionSet)
  | tick_freq_sweep (has_feature : Bool) (result : FrequencySweepResult)
  | tick_envelope_sweep
  | update (cycles : Nat)

/-- Apply one channel event. -/
def Channel.apply_op (c : Channel) : ChannelOp → Channel
  | ChannelOp.fire_register_changed a => c.fire_register_changed a
  | ChannelOp.fire_trigger_event a => c.fire_trigger_event a
  | ChannelOp.tick_length_timer f a => c.tick_length_timer f a
  | ChannelOp.tick_freq_sweep f r => c.tick_freq_sweep f r
  | ChannelOp.tick_envelope_sweep => c.tick_envelope_sweep
  | ChannelOp.update cy => c.update cy

/-- Modelled from the spec: "DAC off ⇒ channel forced off". When a channel
whose DAC is disabled receives a trigger event whose component responses
do not re-enable the DAC, the responses (from the envelope/DAC components,
whose modules are not in the visible sources) disable the channel again. -/
def trigger_actions_wf (c : Channel) (actions : TriggerActionSet) : Prop :=
  c.dac_enabled = false → actions.enable_dac = false →
    actions.disable_dac = true ∨ actions.disable_channel = true

/-- Validity of one event against the current channel state: only trigger
events carry the (spec-modelled) component guarantee. -/
def ChannelOp.valid (c : Channel) : ChannelOp → Prop
  | ChannelOp.fire_trigger_event a => trigger_actions_wf c a
  | _ => True

/-- Validity of an event sequence along its trajectory. -/
def ChannelOp.valid_seq (c : Channel) : List ChannelOp → Prop
  | [] => True
  | op :: rest => op.valid c ∧ ChannelOp.valid_seq (c.apply_op op) rest

/-- Run a sequence of channel events. -/
def Channel.run_ops (c : Channel) : List ChannelOp → Channel
  | [] => c
  | op :: rest => (c.apply_op op).run_ops rest

/-- The claimed channel invariant: channel enabled implies DAC enabled. -/
def ChannelInv (c : Channel) : Prop :=
  c.channel_enabled = true → c.dac_enabled = true

instance (c : Channel) : Decidable (ChannelInv c) := by
  unfold ChannelInv; infer_instance

instance (c : Channel) (a : TriggerActionSet) : Decidable (trigger_actions_wf c a) := by
  unfold trigger_actions_wf; infer_instance

instance (c : Channel) (op : ChannelOp) : Decidable (op.valid c) := by
  cases op <;> (unfold ChannelOp.valid; infer_instance)

instance (c : Channel) (ops : List ChannelOp) : Decidable (ChannelOp.valid_seq c ops) := by
  induction ops generalizing c with
  | nil => unfold ChannelOp.valid_seq; infer_instance
  | cons op rest ih => unfold ChannelOp.valid_seq; exact @instDecidableAnd _ _ _ (ih _)

/-! ### Channel 4 noise generator (src/lib/core/src/apu/channels/noise.rs) -/

/-- `noise::NoiseGenerator`. -/
structure NoiseGenerator where
  lfsr : Nat
  lfsr_width : Nat
  frequency_divider : Nat
  frequency_shift : Nat
  frequency_timer : Nat
  deriving DecidableEq

/-- `NoiseGenerator::new`. -/
def NoiseGenerator.new : NoiseGenerator :=
  { lfsr := 0, lfsr_width := 15, frequency_divider := 8
    frequency_shift := 0, frequency_timer := 0 }

/-- `NoiseGenerator::reset_timer`: the period is `divider << shift`. -/
def NoiseGenerator.reset_timer (g : NoiseGenerator) : NoiseGenerator :=
  { g with frequency_timer := g.frequency_divider <<< g.frequency_shift }

/-- `NoiseGenerator::on_register_changed` for NRx3 (`number = 3`): decode
the frequency shift, the divider code (divider 8 for code 0, `code << 4`
otherwise) and the LFSR width (7 when bit 3 is set, else 15). The
component's returned action is `TriggerAction::None`. -/
def NoiseGenerator.on_register_changed (g : NoiseGenerator) (number : Nat) (nr3 : Nat) :
    NoiseGenerator :=
  match number with
  | 3 =>
    let shift := (nr3 >>> 4) &&& 0x0f
    let divider_code := (nr3 >>> 0) &&& 0x07
    let g := { g with
      frequency_shift := shift
      frequency_divider := if divider_code = 0 then 8 else divider_code <<< 4 }
    let lfsr_is_short := get_bit nr3 3
    { g with lfsr_width := if lfsr_is_short then 7 else 15 }
  | _ => g

/-- `NoiseGenerator::on_trigger_event`: restart the timer and clear the
LFSR. The component's returned action is `TriggerAction::None`. -/
def NoiseGenerator.on_trigger_event (g : NoiseGenerator) : NoiseGenerator :=
  let g := g.reset_timer
  { g with lfsr := 0 }

/-- One LFSR iteration as performed on timer expiry inside
`NoiseGenerator::update`: the new bit is `(lfsr[0] XOR lfsr[1] XOR 1) & 1`,
it is OR-ed in at bit `lfsr_width`, then the register shifts right by one
(so the new bit lands at bit `lfsr_width - 1`). -/
def NoiseGenerator.lfsr_iteration (g : NoiseGenerator) : NoiseGenerator :=
  let insert_bit := (g.lfsr ^^^ (g.lfsr >>> 1) ^^^ 1) &&& 0x01
  let g := { g with lfsr := g.lfsr ||| (insert_bit <<< g.lfsr_width) }
  { g with lfsr := g.lfsr >>> 1 }

/-- The `while` loop of `NoiseGenerator::update`, with fuel bounding the
number of iterations (the Rust loop runs forever if the period
`divider << shift` is zero, which no reachable generator state produces;
`cycles + 1` iterations always suffice otherwise). -/
def NoiseGenerator.update_go : Nat → Nat → NoiseGenerator → Option NoiseGenerator
  | _, 0, g => some g
  | 0, _ + 1, _ => none
  | fuel + 1, remaining + 1, g =>
    let remaining_cycles := remaining + 1
    let run_cycles := min g.frequency_timer remaining_cycles
    let g := { g with frequency_timer := g.frequency_timer - run_cycles }
    let g :=
      if g.frequency_timer = 0 then
        (g.reset_timer).lfsr_iteration
      else g
    NoiseGenerator.update_go fuel (remaining_cycles - run_cycles) g

/-- `NoiseGenerator::update`. -/
def NoiseGenerator.update (g : NoiseGenerator) (cycles : Nat) : Option NoiseGenerator :=
  NoiseGenerator.update_go (cycles + 1) cycles g

/-! ### Stepping flows (src/lib/core/src/emulator_core.rs, src/lib/core/src/gameboy.rs)

Both files define the same stepping flow over the same underlying CPU/MMU
and peripherals. Those components live in modules outside the visible
sources; they are abstracted into a `CoreMachine` record gathering exactly
the operations the two flows invoke, over an opaque component state `σ`,
instruction type `ι` and opcode context type `κ`. The two flows are
transcribed separately, each from its own file. -/

/-- The set of debug events (`debug::DebugEvents`): the PPU
frame-completed bit is tracked explicitly, remaining event bits
abstractly. -/
structure DebugEvents where
  ppu_frame_completed : Bool
  other_bits : Nat
  deriving DecidableEq

/-- No events (`Default::default()`). -/
def DebugEvents.empty : DebugEvents := ⟨false, 0⟩

/-- Union of event sets (`|`). -/
def DebugEvents.union (a b : DebugEvents) : DebugEvents :=
  ⟨a.ppu_frame_completed || b.ppu_frame_completed, a.other_bits ||| b.other_bits⟩

/-- `mmu::memory_bus::MemoryBusSignals`: debug events plus the 5-bit
interrupt request mask. -/
structure MemoryBusSignals where
  events : DebugEvents
  interrupts : Nat
  deriving DecidableEq

/-- `MemoryBusSignals::default()`. -/
def MemoryBusSignals.empty : MemoryBusSignals := ⟨DebugEvents.empty, 0⟩

/-- Union of signal sets (`|=`). -/
def MemoryBusSignals.union (a b : MemoryBusSignals) : MemoryBusSignals :=
  ⟨a.events.union b.events, a.interrupts ||| b.interrupts⟩

/-- `EmulatorUpdateResults`: processed cycles plus events. -/
structure EmulatorUpdateResults where
  cycles : Nat
  events : DebugEvents
  deriving DecidableEq

/-- `EmulatorUpdateResults::default()`. -/
def EmulatorUpdateResults.empty : EmulatorUpdateResults := ⟨0, DebugEvents.empty⟩

/-- The `Add`/`AddAssign` impls on `EmulatorUpdateResults`. -/
def EmulatorUpdateResults.add (a b : EmulatorUpdateResults) : EmulatorUpdateResults :=
  ⟨a.cycles + b.cycles, a.events.union b.events⟩

/-- `cpu::opcode::OpCodeResult`. -/
inductive OpCodeResult where
  | StageDone (cycles : Nat)
  | Done

/-- The operations of the underlying CPU, MMU and peripherals invoked by
the two stepping flows (their modules are outside the visible sources):
component state `σ`, instructions `ι`, opcode contexts `κ`. -/
structure CoreMachine (σ ι κ : Type) where
  is_running : σ → Bool
  handle_interrupts : σ → σ × Option Nat
  fetch_next_instruction : σ → σ × ι
  context_for_instruction : ι → κ
  cycles_ahead : ι → Nat
  opcode_proc : ι → σ → κ → σ × κ × OpCodeResult
  get_cycles_consumed : κ → Nat
  enter_next_stage : κ → κ
  cpu_update : σ → Nat → σ
  mmu_update : σ → Nat → σ
  apu_update : σ → Nat → σ
  ppu_tick : σ → Nat → σ
  timer_update : σ → Nat → σ
  serial_update : σ → Nat → σ
  input_update : σ → σ
  apu_take_signals : σ → σ × MemoryBusSignals
  ppu_take_signals : σ → σ × MemoryBusSignals
  timer_take_signals : σ → σ × MemoryBusSignals
  serial_take_signals : σ → σ × MemoryBusSignals
  input_take_signals : σ → σ × MemoryBusSignals
  request_interrupts : σ → Nat → σ

/-- The state shared by the `GameBoy` and `EmulatorCore` wrapper structs:
the owned component tree (behind `cpu`) plus the total cycle counter. -/
structure CoreState (σ : Type) where
  cpu : σ
  total_cycles : Nat

/-- `GameBoy::update_components` (gameboy.rs): advance every component by
the elapsed cycles, gather their signals, forward the requested interrupts
and bump the total cycle counter. -/
def GameBoy.update_components {σ ι κ : Type} (M : CoreMachine σ ι κ)
    (gb : CoreState σ) (cycles : Nat) : CoreState σ × MemoryBusSignals :=
  let s := M.cpu_update gb.cpu cycles
  let s := M.mmu_update s cycles
  let s := M.apu_update s cycles
  let s := M.ppu_tick s cycles
  let s := M.timer_update s cycles
  let s := M.serial_update s cycles
  let s := M.input_update s
  let (s, sig_apu) := M.apu_take_signals s
  let (s, sig_ppu) := M.ppu_take_signals s
  let (s, sig_timer) := M.timer_take_signals s
  let (s, sig_serial) := M.serial_take_signals s
  let (s, sig_input) := M.input_take_signals s
  let signals := ((((sig_apu.union sig_ppu).union sig_timer).union sig_serial).union sig_input)
  let s := M.request_interrupts s signals.interrupts
  ({ cpu := s, total_cycles := gb.total_cycles + cycles }, signals)

/-- The staged opcode loop of `GameBoy::process_next_opcode` (gameboy.rs),
with fuel bounding the number of stages. -/
def GameBoy.opcode_stage_loop {σ ι κ : Type} (M : CoreMachine σ ι κ) (instruction : ι) :
    Nat → CoreState σ → κ → MemoryBusSignals → Nat →
    Option (CoreState σ × κ × MemoryBusSignals)
  | 0, _, _, _, _ => none
  | fuel + 1, gb, context, signals, total_step_cycles =>
    let step := M.opcode_proc instruction gb.cpu context
    let gb := { gb with cpu := step.1 }
    let context := step.2.1
    match step.2.2 with
    | OpCodeResult.StageDone step_cycles =>
      let total_step_cycles := total_step_cycles + step_cycles
      let (gb, sig) := GameBoy.update_components M gb step_cycles
      GameBoy.opcode_stage_loop M instruction fuel gb (M.enter_next_stage context)
        (signals.union sig) total_step_cycles
    | OpCodeResult.Done =>
      let remaining_cycles := M.get_cycles_consumed context - total_step_cycles
      let (gb, sig) := GameBoy.update_components M gb remaining_cycles
      some (gb, context, signals.union sig)

/-- `GameBoy::process_next_opcode` (gameboy.rs). -/
def GameBoy.process_next_opcode {σ ι κ : Type} (M : CoreMachine σ ι κ) (fuel : Nat)
    (gb : CoreState σ) : Option (CoreState σ × EmulatorUpdateResults) :=
  let fetched := M.fetch_next_instruction gb.cpu
  let gb := { gb with cpu := fetched.1 }
  let instruction := fetched.2
  let context := M.context_for_instruction instruction
  let start :=
    if M.cycles_ahead instruction ≠ 0 then
      let cycles_ahead := M.cycles_ahead instruction
      let (gb, sig) := GameBoy.update_components M gb cycles_ahead
      (gb, (MemoryBusSignals.empty).union sig, cycles_ahead)
    else (gb, MemoryBusSignals.empty, 0)
  (GameBoy.opcode_stage_loop M instruction fuel start.1 context start.2.1 start.2.2).map
    (fun out => (out.1, ⟨M.get_cycles_consumed out.2.1, out.2.2.events⟩))

/-- `GameBoy::process_next` (gameboy.rs). -/
def GameBoy.process_next {σ ι κ : Type} (M : CoreMachine σ ι κ) (fuel : Nat)
    (gb : CoreState σ) : Option (CoreState σ × EmulatorUpdateResults) :=
  if M.is_running gb.cpu then
    let handled := M.handle_interrupts gb.cpu
    match handled.2 with
    | some cycles =>
      let gb := { gb with cpu := handled.1 }
      let (gb, signals) := GameBoy.update_components M gb cycles
      some (gb, ⟨cycles, signals.events⟩)
    | none =>
      GameBoy.process_next_opcode M fuel { gb with cpu := handled.1 }
  else
    let halt_cycle := 4
    let (gb, signals) := GameBoy.update_components M gb halt_cycle
    some (gb, ⟨halt_cycle, signals.events⟩)

/-- The loop of `GameBoy::run_frame` (gameboy.rs): accumulate step results
until the frame-completed event is observed or the accumulated cycles
reach `CPU_CYCLES_PER_FRAME`; `loop_fuel` bounds the iterations. -/
def GameBoy.run_frame_go {σ ι κ : Type} (M : CoreMachine σ ι κ) (fuel : Nat) :
    Nat → CoreState σ → EmulatorUpdateResults →
    Option (CoreState σ × EmulatorUpdateResults)
  | 0, _, _ => none
  | loop_fuel + 1, gb, results =>
    match GameBoy.process_next M fuel gb with
    | none => none
    | some (gb, r) =>
      let results := results.add r
      if results.events.ppu_frame_completed then some (gb, results)
      else if results.cycles ≥ CPU_CYCLES_PER_FRAME then some (gb, results)
      else GameBoy.run_frame_go M fuel loop_fuel gb results

/-- `GameBoy::run_frame` (gameboy.rs). -/
def GameBoy.run_frame {σ ι κ : Type} (M : CoreMachine σ ι κ) (loop_fuel fuel : Nat)
    (gb : CoreState σ) : Option (CoreState σ × EmulatorUpdateResults) :=
  GameBoy.run_frame_go M fuel loop_fuel gb EmulatorUpdateResults.empty

/-- `EmulatorCore::update_components` (emulator_core.rs). -/
def EmulatorCore.update_components {σ ι κ : Type} (M : CoreMachine σ ι κ)
    (gb : CoreState σ) (cycles : Nat) : CoreState σ × MemoryBusSignals :=
  let s := M.cpu_update gb.cpu cycles
  let s := M.mmu_update s cycles
  let s := M.apu_update s cycles
  let s := M.ppu_tick s cycles
  let s := M.timer_update s cycles
  let s := M.serial_update s cycles
  let s := M.input_update s
  let (s, sig_apu) := M.apu_take_signals s
  let (s, sig_ppu) := M.ppu_take_signals s
  let (s, sig_timer) := M.timer_take_signals s
  let (s, sig_serial) := M.serial_take_signals s
  let (s, sig_input) := M.input_take_signals s
  let signals := ((((sig_apu.union sig_ppu).union sig_timer).union sig_serial).union sig_input)
  let s := M.request_interrupts s signals.interrupts
  ({ cpu := s, total_cycles := gb.total_cycles + cycles }, signals)

/-- The staged opcode loop of `EmulatorCore::process_next_opcode`
(emulator_core.rs). -/
def EmulatorCore.opcode_stage_loop {σ ι κ : Type} (M : CoreMachine σ ι κ)
    (instruction : ι) :
    Nat → CoreState σ → κ → MemoryBusSignals → Nat →
    Option (CoreState σ × κ × MemoryBusSignals)
  | 0, _, _, _, _ => none
  | fuel + 1, gb, context, signals, total_step_cycles =>
    let step := M.opcode_proc instruction gb.cpu context
    let gb := { gb with cpu := step.1 }
    let context := step.2.1
    match step.2.2 with
    | OpCodeResult.StageDone step_cycles =>
      let total_step_cycles := total_step_cycles + step_cycles
      let (gb, sig) := EmulatorCore.update_components M gb step_cycles
      EmulatorCore.opcode_stage_loop M instruction fuel gb (M.enter_next_stage context)
        (signals.union sig) total_step_cycles
    | OpCodeResult.Done =>
      let remaining_cycles := M.get_cycles_consumed context - total_step_cycles
      let (gb, sig) := EmulatorCore.update_components M gb remaining_cycles
      some (gb, context, signals.union sig)

/-- `EmulatorCore::process_next_opcode` (emulator_core.rs). -/
def EmulatorCore.process_next_opcode {σ ι κ : Type} (M : CoreMachine σ ι κ) (fuel : Nat)
    (gb : CoreState σ) : Option (CoreState σ × EmulatorUpdateResults) :=
  let fetched := M.fetch_next_instruction gb.cpu
  let gb := { gb with cpu := fetched.1 }
  let instruction := fetched.2
  let context := M.context_for_instruction instruction
  let start :=
    if M.cycles_ahead instruction ≠ 0 then
      let cycles_ahead := M.cycles_ahead instruction
      let (gb, sig) := EmulatorCore.update_components M gb cycles_ahead
      (gb, (MemoryBusSignals.empty).union sig, cycles_ahead)
    else (gb, MemoryBusSignals.empty, 0)
  (EmulatorCore.opcode_stage_loop M instruction fuel start.1 context start.2.1 start.2.2).map
    (fun out => (out.1, ⟨M.get_cycles_consumed out.2.1, out.2.2.events⟩))

/-- `EmulatorCore::process_next` (emulator_core.rs). -/
def EmulatorCore.process_next {σ ι κ : Type} (M : CoreMachine σ ι κ) (fuel : Nat)
    (gb : CoreState σ) : Option (CoreState σ × EmulatorUpdateResults) :=
  if M.is_running gb.cpu then
    let handled := M.handle_interrupts gb.cpu
    match handled.2 with
    | some cycles =>
      let gb := { gb with cpu := handled.1 }
      let (gb, signals) := EmulatorCore.update_components M gb cycles
      some (gb, ⟨cycles, signals.events⟩)
    | none =>
      EmulatorCore.process_next_opcode M fuel { gb with cpu := handled.1 }
  else
    let halt_cycle := 4
    let (gb, signals) := EmulatorCore.update_components M gb halt_cycle
    some (gb, ⟨halt_cycle, signals.events⟩)

/-- The loop of `EmulatorCore::run_frame` (emulator_core.rs). -/
def EmulatorCore.run_frame_go {σ ι κ : Type} (M : CoreMachine σ ι κ) (fuel : Nat) :
    Nat → CoreState σ → EmulatorUpdateResults →
    Option (CoreState σ × EmulatorUpdateResults)
  | 0, _, _ => none
  | loop_fuel + 1, gb, results =>
    match EmulatorCore.process_next M fuel gb with
    | none => none
    | some (gb, r) =>
      let results := results.add r
      if results.events.ppu_frame_completed then some (gb, results)
      else if results.cycles ≥ CPU_CYCLES_PER_FRAME then some (gb, results)
      else EmulatorCore.run_frame_go M fuel loop_fuel gb results

/-- `EmulatorCore::run_frame` (emulator_core.rs). -/
def EmulatorCore.run_frame {σ ι κ : Type} (M : CoreMachine σ ι κ) (loop_fuel fuel : Nat)
    (gb : CoreState σ) : Option (CoreState σ × EmulatorUpdateResults) :=
  EmulatorCore.run_frame_go M fuel loop_fuel gb EmulatorUpdateResults.empty

/-- The run of `EmulatorCore::run_frame`'s loop described extensionally:
starting from `gb` with accumulator `acc`, the loop performs single steps,
folds every step's results into the accumulator, and returns the final
state with the accumulated results at the first point where the
accumulated events contain the PPU frame-completed event or the
accumulated cycles reach `CPU_CYCLES_PER_FRAME`. -/
inductive RunFrameRun {σ ι κ : Type} (M : CoreMachine σ ι κ) (fuel : Nat) :
    CoreState σ → EmulatorUpdateResults → CoreState σ × EmulatorUpdateResults → Prop
  | stops (gb : CoreState σ) (acc : EmulatorUpdateResults) (gb' : CoreState σ)
      (r : EmulatorUpdateResults)
      (hstep : EmulatorCore.process_next M fuel gb = some (gb', r))
      (hstop : (acc.add r).events.ppu_frame_completed = true
        ∨ (acc.add r).cycles ≥ CPU_CYCLES_PER_FRAME) :
      RunFrameRun M fuel gb acc (gb', acc.add r)
  | continues (gb : CoreState σ) (acc : EmulatorUpdateResults) (gb' : CoreState σ)
      (r : EmulatorUpdateResults) (out : CoreState σ × EmulatorUpdateResults)
      (hstep : EmulatorCore.process_next M fuel gb = some (gb', r))
      (hgo : ¬ ((acc.add r).events.ppu_frame_completed = true
        ∨ (acc.add r).cycles ≥ CPU_CYCLES_PER_FRAME))
      (hrest : RunFrameRun M fuel gb' (acc.add r) out) :
      RunFrameRun M fuel gb acc out

/-- The PPU state invariant maintained by `Ppu::update` from `Ppu::new`:
LY stays within 0..153, the pixel cursor stays within the screen width,
during Draw the line cycle counter tracks `80 + 2 * pixel`, and in HBlank
it never exceeds the 456-cycle line length. -/
def PpuInv (p : Ppu) : Prop :=
  p.ly ≤ 153
  ∧ p.current_line_pixel ≤ SCREEN_W
  ∧ (p.mode = Mode.DrawLine → p.current_line_cycles = 80 + 2 * p.current_line_pixel)
  ∧ (p.mode = Mode.HBlank → p.current_line_cycles ≤ CPU_CYCLES_PER_LINE)

instance (p : Ppu) : Decidable (PpuInv p) := by
  unfold PpuInv; infer_instance

/-- A minimal concrete machine over unit states: the CPU is halted and the
PPU reports a completed frame on every component update. Used to witness
the stepping theorems. -/
def haltingMachine : CoreMachine Unit Unit Unit :=
  { is_running := fun _ => false
    handle_interrupts := fun s => (s, none)
    fetch_next_instruction := fun s => (s, ())
    context_for_instruction := fun _ => ()
    cycles_ahead := fun _ => 0
    opcode_proc := fun _ s k => (s, k, OpCodeResult.Done)
    get_cycles_consumed := fun _ => 4
    enter_next_stage := fun k => k
    cpu_update := fun s _ => s
    mmu_update := fun s _ => s
    apu_update := fun s _ => s
    ppu_tick := fun s _ => s
    timer_update := fun s _ => s
    serial_update := fun s _ => s
    input_update := fun s => s
    apu_take_signals := fun s => (s, MemoryBusSignals.empty)
    ppu_take_signals := fun s =>
      (s, { events := { ppu_frame_completed := true, other_bits := 0 }, interrupts := 0 })
    timer_take_signals := fun s => (s, MemoryBusSignals.empty)
    serial_take_signals := fun s => (s, MemoryBusSignals.empty)
    input_take_signals := fun s => (s, MemoryBusSignals.empty)
    request_interrupts := fun s _ => s }

/-- The sprite selection described by the spec for the OAM scan, amended
with the code's on-screen-x condition: the first ten OAM entries, in OAM
order, that pass the acceptance test (`pos_x > 0` and the y-range of the
sprite intersects the scanline). -/
def spec_oam_selection (read : Nat → Nat) (line_number sprite_h : Nat) : List Sprite :=
  (((List.range 40).map (Sprite.from_oam read)).filter
      (oam_accepts (wadd8 line_number 16) sprite_h)).take 10

/-! ## Theorems -/

/-- Claim C1: the table entries of the 11 undefined base opcodes (0xD3,
0xDB, 0xDD, 0xE3, 0xE4, 0xEB, 0xEC, 0xED, 0xF4, 0xFC, 0xFD) are all
`OPCODE_INVALID`, and the handler `OPCODE_INVALID` dispatches to panics on
every machine state: it produces no `InvalidOpcode` error, no locked-CPU
successor state and no event — contradicting the claimed error handling. -/
theorem opcode_invalid_entries_panic :
    (opcode_at 0xd3 = OPCODE_INVALID ∧ opcode_at 0xdb = OPCODE_INVALID
      ∧ opcode_at 0xdd = OPCODE_INVALID ∧ opcode_at 0xe3 = OPCODE_INVALID
      ∧ opcode_at 0xe4 = OPCODE_INVALID ∧ opcode_at 0xeb = OPCODE_INVALID
      ∧ opcode_at 0xec = OPCODE_INVALID ∧ opcode_at 0xed = OPCODE_INVALID
      ∧ opcode_at 0xf4 = OPCODE_INVALID ∧ opcode_at 0xfc = OPCODE_INVALID
      ∧ opcode_at 0xfd = OPCODE_INVALID)
    ∧ OPCODE_INVALID.proc = "opcode_invalid_proc"
    ∧ (∀ (GB : Type) (gb : GB), opcode_invalid_proc gb = RustOutcome.panicked)
    ∧ (∀ (GB : Type) (gb gb' : GB), opcode_invalid_proc gb ≠ RustOutcome.ok gb') := by
  refine ⟨by decide, rfl, fun GB gb => rfl, fun GB gb gb' h => ?_⟩
  exact RustOutcome.noConfusion h

/-- Claim C10: the base table entry for opcode 0x3E carries the mnemonic
"LD A, ${x8}" but dispatches to the handler `ld_l_u8` — the same handler
as entry 0x2E ("LD L, ${x8}") — which loads the fetched immediate into
register L and leaves register A unchanged, contradicting the mnemonic. -/
theorem opcode_0x3e_dispatch_mismatch :
    (opcode_at 0x3e).name = "LD A, ${x8}"
    ∧ (opcode_at 0x3e).proc = "ld_l_u8"
    ∧ (opcode_at 0x3e).proc = (opcode_at 0x2e).proc
    ∧ (opcode_at 0x2e).name = "LD L, ${x8}"
    ∧ (∀ (regs : LdRegs) (imm : Nat), (ld_l_u8_run regs imm).a = regs.a)
    ∧ (ld_l_u8_run ⟨0x00, 0x00⟩ 0x42).l = 0x42
    ∧ ¬ (ld_l_u8_run ⟨0x00, 0x00⟩ 0x42).a = 0x42 := by
  exact ⟨by decide, by decide, by decide, by decide, fun regs imm => rfl, by decide, by decide⟩

/-- Claim C9 (counterexample): writing pixel value 0x04 and reading it
back yields 0x00, not 0x04 — `set_pixel` stores only the low two bits, so
the buffer does not hold arbitrary 32-bit values and the set/get
round-trip is not the identity. -/
theorem lcd_set_get_not_exact :
    ((LcdBuffer.alloc.set_pixel 0 0 0x04).get_pixel 0 0 = 0x00)
    ∧ (0x00 : Nat) ≠ 0x04 := by
  exact ⟨rfl, by decide⟩

/-- Claim C9 (amended): the LCD buffer is a 160×144 grid of byte entries
holding 2-bit palette indices: for in-range coordinates the flat index is
within the `SCREEN_PIXELS = 160*144` buffer, and `get_pixel` after
`set_pixel` returns `v & 0x03` (the exact value for `v < 4`). -/
theorem lcd_set_get_masked (b : LcdBuffer) (x y v : Nat)
    (hx : x < SCREEN_W) (hy : y < SCREEN_H) :
    ((b.set_pixel x y v).get_pixel x y = v &&& 0x03)
    ∧ x + y * SCREEN_W < SCREEN_PIXELS
    ∧ (v < 4 → (b.set_pixel x y v).get_pixel x y = v) := by
  have hidx : x + y * SCREEN_W < SCREEN_PIXELS := by
    simp only [SCREEN_W, SCREEN_H, SCREEN_PIXELS] at *
    nlinarith
  have hget : (b.set_pixel x y v).get_pixel x y = v &&& 0x03 := by
    simp [LcdBuffer.set_pixel, LcdBuffer.get_pixel]
  refine ⟨hget, hidx, fun hv => ?_⟩
  rw [hget]
  have : v &&& 0x03 = v % 4 := by
    have := Nat.and_pow_two_sub_one_eq_mod v 2
    norm_num at this
    exact this
  rw [this, Nat.mod_eq_of_lt hv]

/-- Witness for `lcd_set_get_masked` at x=5, y=7, v=0xff. -/
theorem lcd_set_get_masked_witness :
    ((LcdBuffer.alloc.set_pixel 5 7 0xff).get_pixel 5 7 = 0xff &&& 0x03)
    ∧ 5 + 7 * SCREEN_W < SCREEN_PIXELS
    ∧ (0xff < 4 → (LcdBuffer.alloc.set_pixel 5 7 0xff).get_pixel 5 7 = 0xff) :=
  lcd_set_get_masked LcdBuffer.alloc 5 7 0xff (by decide) (by decide)

/-- The frame-sequencer period loop computes the divmod by
`APU_UPDATE_PERIOD`, applying one sequencer step per full period. -/
theorem fs_loop_divmod {γ : Type} (tl ts te : γ → γ) :
    ∀ (c : Nat) (fs : FrameSequencer) (chs : γ),
      Apu.fs_loop tl ts te c fs chs
        = (c % APU_UPDATE_PERIOD,
           (fun p : FrameSequencer × γ =>
              Apu.next_frame_sequencer_step tl ts te p.1 p.2)^[c / APU_UPDATE_PERIOD]
             (fs, chs)) := by
  intro c
  induction c using Nat.strong_induction_on with
  | _ c ih =>
    intro fs chs
    rw [Apu.fs_loop]
    split
    case isTrue h =>
      have hper : 0 < APU_UPDATE_PERIOD := by decide
      have hlt : c - APU_UPDATE_PERIOD < c := by
        simp only [APU_UPDATE_PERIOD] at h ⊢; omega
      rw [ih (c - APU_UPDATE_PERIOD) hlt]
      have hmod : c % APU_UPDATE_PERIOD = (c - APU_UPDATE_PERIOD) % APU_UPDATE_PERIOD :=
        Nat.mod_eq_sub_mod h
      have hdiv : c / APU_UPDATE_PERIOD = (c - APU_UPDATE_PERIOD) / APU_UPDATE_PERIOD + 1 :=
        Nat.div_eq_sub_div hper h
      rw [← hmod, hdiv, Function.iterate_succ_apply]
    case isFalse h =>
      have hc : c < APU_UPDATE_PERIOD := Nat.lt_of_not_le h
      rw [Nat.mod_eq_of_lt hc, Nat.div_eq_of_lt hc]
      rfl

/-- Claim C6: the frame sequencer advances one step per 8,192 T-cycles
(`update_frame_sequencer` performs exactly `(clock + cycles) / 8192` steps
and keeps the remainder), the step counter acts modulo 8, the length gate
is open exactly on steps 0, 2, 4, 6, the sweep gate exactly on steps 2 and
6, and the envelope gate exactly on step 7. -/
theorem apu_frame_sequencer_schedule {γ : Type} (tl ts te : γ → γ) :
    (∀ (fs_clock cycles : Nat) (fs : FrameSequencer) (chs : γ),
      fs_clock + cycles < 2 ^ 64 →
      Apu.update_frame_sequencer tl ts te fs_clock fs chs cycles
        = ((fs_clock + cycles) % APU_UPDATE_PERIOD,
           (fun p : FrameSequencer × γ =>
              Apu.next_frame_sequencer_step tl ts te p.1 p.2)^[(fs_clock + cycles) / APU_UPDATE_PERIOD]
             (fs, chs)))
    ∧ APU_UPDATE_PERIOD = 8192
    ∧ (∀ fs : FrameSequencer, (fs.increment).fs_next_step % 8 = (fs.fs_next_step + 1) % 8)
    ∧ (∀ fs : FrameSequencer, fs.is_length_timer_active = true ↔
        (fs.fs_next_step % 8 = 0 ∨ fs.fs_next_step % 8 = 2
          ∨ fs.fs_next_step % 8 = 4 ∨ fs.fs_next_step % 8 = 6))
    ∧ (∀ fs : FrameSequencer, fs.is_freq_sweep_active = true ↔
        (fs.fs_next_step % 8 = 2 ∨ fs.fs_next_step % 8 = 6))
    ∧ (∀ fs : FrameSequencer, fs.is_volume_envelope_active = true ↔ fs.fs_next_step % 8 = 7)
    ∧ (∀ (fs : FrameSequencer) (chs : γ),
        Apu.next_frame_sequencer_step tl ts te fs chs
          = (fs.increment,
             (fun c => if fs.is_volume_envelope_active then te c else c)
               ((fun c => if fs.is_freq_sweep_active then ts c else c)
                 ((fun c => if fs.is_length_timer_active then tl c else c) chs)))) := by
  refine ⟨?_, rfl, ?_, ?_, ?_, ?_, fun fs chs => rfl⟩
  · intro fs_clock cycles fs chs hlt
    unfold Apu.update_frame_sequencer
    rw [Nat.mod_eq_of_lt hlt]
    exact fs_loop_divmod tl ts te (fs_clock + cycles) fs chs
  · intro fs
    simp only [FrameSequencer.increment, wadd8]
    exact Nat.mod_mod_of_dvd _ (by norm_num)
  · intro fs
    simp only [FrameSequencer.is_length_timer_active, decide_eq_true_eq]
    rw [show (0b0001 : Nat) = 1 from rfl, Nat.and_one_is_mod]
    have h2 : fs.fs_next_step % 2 = fs.fs_next_step % 8 % 2 :=
      (Nat.mod_mod_of_dvd _ (by norm_num)).symm
    have h8 : fs.fs_next_step % 8 < 8 := Nat.mod_lt _ (by norm_num)
    omega
  · intro fs
    simp only [FrameSequencer.is_freq_sweep_active, decide_eq_true_eq]
    have h4 : fs.fs_next_step &&& 3 = fs.fs_next_step % 4 := by
      have := Nat.and_pow_two_sub_one_eq_mod fs.fs_next_step 2
      norm_num at this
      exact this
    rw [show (0b0011 : Nat) = 3 from rfl, h4]
    have h2 : fs.fs_next_step % 4 = fs.fs_next_step % 8 % 4 :=
      (Nat.mod_mod_of_dvd _ (by norm_num)).symm
    have h8 : fs.fs_next_step % 8 < 8 := Nat.mod_lt _ (by norm_num)
    omega
  · intro fs
    simp only [FrameSequencer.is_volume_envelope_active, decide_eq_true_eq]
    have h8 : fs.fs_next_step &&& 7 = fs.fs_next_step % 8 := by
      have := Nat.and_pow_two_sub_one_eq_mod fs.fs_next_step 3
      norm_num at this
      exact this
    rw [show (0b0111 : Nat) = 7 from rfl, h8]

/-- Witness for `apu_frame_sequencer_schedule`: updating with clock 8,191
and 8,193 elapsed cycles performs exactly two sequencer steps. -/
theorem apu_frame_sequencer_schedule_witness :
    (8191 + 8193 < 2 ^ 64)
    ∧ Apu.update_frame_sequencer (γ := Nat) (· + 1) (· + 10) (· + 100) 8191
        FrameSequencer.new 0 8193
      = ((8191 + 8193) % APU_UPDATE_PERIOD,
         (fun p : FrameSequencer × Nat =>
            Apu.next_frame_sequencer_step (· + 1) (· + 10) (· + 100) p.1 p.2)^[(8191 + 8193) / APU_UPDATE_PERIOD]
           (FrameSequencer.new, 0)) :=
  ⟨by norm_num,
   (apu_frame_sequencer_schedule (γ := Nat) (· + 1) (· + 10) (· + 100)).1 8191 8193
     FrameSequencer.new 0 (by norm_num)⟩

/-- Claim C4 (counterexample): trigger state with a 7-bit LFSR, all-zero
register and period 8 (divider 8, shift 0), one cycle before expiry. The
new bit is `(0 XOR 0 XOR 1) & 1 = 1`; the claim says it is inserted at bit
position 14 and also at position 6, but the iteration produces 0x40: bit 6
is set while bit 14 stays clear (the claimed result would be 0x4040). -/
theorem noise_lfsr_bit14_not_inserted :
    NoiseGenerator.update
        { lfsr := 0, lfsr_width := 7, frequency_divider := 8
          frequency_shift := 0, frequency_timer := 1 } 1
      = some { lfsr := 0x40, lfsr_width := 7, frequency_divider := 8
               frequency_shift := 0, frequency_timer := 8 }
    ∧ (((0 : Nat) ^^^ (0 >>> 1) ^^^ 1) &&& 1) = 1
    ∧ Nat.testBit 0x40 6 = true
    ∧ Nat.testBit 0x40 14 = false
    ∧ (0x40 : Nat) ≠ 0x4040 := by
  exact ⟨by decide, by decide, by decide, by decide, by decide⟩

/-- Claim C4 (amended): channel 4's noise generator iterates with period
`divisor[code] << shift` where `divisor[0] = 8` and `divisor[code] =
code << 4` for codes 1..7; on each period it computes `new_bit = (lfsr[0]
XOR lfsr[1] XOR 1) & 1`, shifts the register right by one and inserts
`new_bit` at bit position `width − 1`: position 14 when the LFSR width is
15, and position 6 (not also 14) when the width is 7. -/
theorem noise_lfsr_amended :
    (∀ (g : NoiseGenerator) (nr3 : Nat),
      (g.on_register_changed 3 nr3).frequency_shift = (nr3 >>> 4) &&& 0x0f
      ∧ (g.on_register_changed 3 nr3).frequency_divider
          = (if nr3 &&& 0x07 = 0 then 8 else (nr3 &&& 0x07) <<< 4)
      ∧ (g.on_register_changed 3 nr3).lfsr_width = (if get_bit nr3 3 then 7 else 15))
    ∧ (∀ g : NoiseGenerator,
        (g.reset_timer).frequency_timer = g.frequency_divider <<< g.frequency_shift)
    ∧ (∀ (g : NoiseGenerator) (c : Nat), g.frequency_timer = c → 1 ≤ c →
        g.update c = some { g with
          frequency_timer := g.frequency_divider <<< g.frequency_shift
          lfsr := (g.lfsr
            ||| (((g.lfsr ^^^ (g.lfsr >>> 1) ^^^ 1) &&& 1) <<< g.lfsr_width)) >>> 1 })
    ∧ (∀ lfsr width : Nat, (width = 15 ∨ width = 7) → lfsr < 2 ^ width →
        ((((lfsr ^^^ (lfsr >>> 1) ^^^ 1) &&& 1) = 1) ↔ (lfsr.testBit 0 = lfsr.testBit 1))
        ∧ ((lfsr ||| (((lfsr ^^^ (lfsr >>> 1) ^^^ 1) &&& 1) <<< width)) >>> 1).testBit (width - 1)
            = decide ((((lfsr ^^^ (lfsr >>> 1) ^^^ 1) &&& 1)) = 1)
        ∧ (∀ i, i + 1 < width →
            ((lfsr ||| (((lfsr ^^^ (lfsr >>> 1) ^^^ 1) &&& 1) <<< width)) >>> 1).testBit i
              = lfsr.testBit (i + 1))
        ∧ ((lfsr ||| (((lfsr ^^^ (lfsr >>> 1) ^^^ 1) &&& 1) <<< width)) >>> 1) < 2 ^ width
        ∧ (width = 7 →
            ((lfsr ||| (((lfsr ^^^ (lfsr >>> 1) ^^^ 1) &&& 1) <<< width)) >>> 1).testBit 14
              = false)) := by
  refine ⟨fun g nr3 => ⟨rfl, rfl, rfl⟩, fun g => rfl, ?_, ?_⟩
  · intro g c hc h1
    obtain ⟨k, rfl⟩ : ∃ k, c = k + 1 := ⟨c - 1, by omega⟩
    show NoiseGenerator.update_go (k + 1 + 1) (k + 1) g = _
    rw [NoiseGenerator.update_go]
    simp only [hc, min_self, Nat.sub_self, if_pos rfl]
    rw [NoiseGenerator.update_go]
    rfl
  · intro lfsr width hw hlt
    set nb := (lfsr ^^^ (lfsr >>> 1) ^^^ 1) &&& 1 with hnbdef
    have hnb01 : nb = 0 ∨ nb = 1 := by
      have : nb = (lfsr ^^^ (lfsr >>> 1) ^^^ 1) % 2 := Nat.and_one_is_mod _
      omega
    have hwpos : 1 ≤ width := by rcases hw with h | h <;> omega
    set z := lfsr ||| (nb <<< width) with hzdef
    have hshift : ∀ i, z.testBit (i + 1)
        = (lfsr.testBit (i + 1) || (decide (width ≤ i + 1) && nb.testBit (i + 1 - width))) := by
      intro i
      rw [hzdef, Nat.testBit_or, Nat.testBit_shiftLeft]
    have hout : ∀ i, (z >>> 1).testBit i = z.testBit (i + 1) := by
      intro i
      rw [Nat.testBit_shiftRight]
      ring_nf
    have hnbbit : nb.testBit 0 = decide (nb = 1) := by
      rcases hnb01 with h | h <;> simp [h]
    refine ⟨?_, ?_, ?_, ?_, ?_⟩
    · rw [hnbdef]
      have h1 : ((lfsr ^^^ (lfsr >>> 1) ^^^ 1) &&& 1) = (lfsr ^^^ (lfsr >>> 1) ^^^ 1) % 2 :=
        Nat.and_one_is_mod _
      have h2 : (lfsr ^^^ (lfsr >>> 1) ^^^ 1).testBit 0
          = (((lfsr.testBit 0).xor ((lfsr >>> 1).testBit 0)).xor ((1 : Nat).testBit 0)) := by
        rw [Nat.testBit_xor, Nat.testBit_xor]
      have h3 : (lfsr >>> 1).testBit 0 = lfsr.testBit 1 := by
        rw [Nat.testBit_shiftRight]
      have h4 : (lfsr ^^^ (lfsr >>> 1) ^^^ 1).testBit 0
          = decide ((lfsr ^^^ (lfsr >>> 1) ^^^ 1) % 2 = 1) := Nat.testBit_zero _
      rw [h1, ← decide_eq_true_eq (p := (lfsr ^^^ (lfsr >>> 1) ^^^ 1) % 2 = 1)]
      rw [← h4, h2, h3]
      cases hb0 : lfsr.testBit 0 <;> cases hb1 : lfsr.testBit 1 <;> simp
    · rw [hout]
      have hw1 : width - 1 + 1 = width := by omega
      rw [hw1, hzdef, Nat.testBit_or, Nat.testBit_shiftLeft]
      rw [Nat.testBit_lt_two_pow hlt]
      simp [hnbbit]
    · intro i hi
      rw [hout, hshift]
      have : ¬ (width ≤ i + 1) := by omega
      simp [this]
    · have hz : z < 2 ^ (width + 1) := by
        apply Nat.or_lt_two_pow
        · exact lt_of_lt_of_le hlt (Nat.pow_le_pow_right (by norm_num) (by omega))
        · have : nb <<< width = nb * 2 ^ width := by
            rw [Nat.shiftLeft_eq]
          rw [this]
          have : nb * 2 ^ width ≤ 1 * 2 ^ width := by
            apply Nat.mul_le_mul_right
            omega
          calc nb * 2 ^ width ≤ 1 * 2 ^ width := this
            _ < 2 ^ (width + 1) := by rw [one_mul, pow_succ]; omega
      rw [Nat.shiftRight_eq_div_pow]
      rw [pow_succ] at hz
      omega
    · intro h7
      subst h7
      have hz : z < 2 ^ 8 := by
        apply Nat.or_lt_two_pow
        · exact lt_of_lt_of_le hlt (by norm_num)
        · have : nb <<< 7 = nb * 2 ^ 7 := Nat.shiftLeft_eq ..
          rw [this]
          omega
      have : z >>> 1 < 2 ^ 15 := by
        rw [Nat.shiftRight_eq_div_pow]
        omega
      exact Nat.testBit_lt_two_pow (by omega)

/-- Witness for `noise_lfsr_amended`: one full period at the trigger state
(timer 8, period 8) applies exactly one LFSR iteration, and the bit facts
hold at lfsr = 1, width = 7. -/
theorem noise_lfsr_amended_witness :
    (NoiseGenerator.update
        { lfsr := 1, lfsr_width := 7, frequency_divider := 8
          frequency_shift := 0, frequency_timer := 8 } 8
      = some { lfsr := 0, lfsr_width := 7, frequency_divider := 8
               frequency_shift := 0, frequency_timer := 8 })
    ∧ (((((1 : Nat) ^^^ (1 >>> 1) ^^^ 1) &&& 1) = 1) ↔
        (Nat.testBit 1 0 = Nat.testBit 1 1))
    ∧ (((1 : Nat) ||| ((((1 : Nat) ^^^ (1 >>> 1) ^^^ 1) &&& 1) <<< 7)) >>> 1) < 2 ^ 7 := by
  refine ⟨?_, ?_, ?_⟩
  · exact (noise_lfsr_amended.2.2.1
      { lfsr := 1, lfsr_width := 7, frequency_divider := 8
        frequency_shift := 0, frequency_timer := 8 } 8 rfl (by norm_num))
  · exact (noise_lfsr_amended.2.2.2 1 7 (Or.inr rfl) (by norm_num)).1
  · exact (noise_lfsr_amended.2.2.2 1 7 (Or.inr rfl) (by norm_num)).2.2.2.1

/-- Claim C7: for every channel, the invariant "channel enabled ⇒ DAC
enabled" holds initially, disabling the DAC forces the channel off, and
every operation — register writes, triggering via NRx4 bit 7 (under the
spec-modelled component guarantee `trigger_actions_wf`), and the
frame-sequencer ticks — preserves the invariant, singly and along every
event sequence. -/
theorem channel_dac_invariant :
    ChannelInv Channel.new
    ∧ (∀ (c : Channel) (actions : TriggerActionSet), actions.disable_dac = true →
        (c.apply_actions actions).1.channel_enabled = false
        ∧ (c.apply_actions actions).1.dac_enabled = false)
    ∧ (∀ (c : Channel) (op : ChannelOp), ChannelInv c → op.valid c →
        ChannelInv (c.apply_op op))
    ∧ (∀ (c : Channel) (ops : List ChannelOp), ChannelInv c → ChannelOp.valid_seq c ops →
        ChannelInv (c.run_ops ops)) := by
  have hdd : ∀ (c : Channel) (actions : TriggerActionSet), actions.disable_dac = true →
      (c.apply_actions actions).1.channel_enabled = false
      ∧ (c.apply_actions actions).1.dac_enabled = false := by
    intro c a h
    rcases a with ⟨n, e, dd, dc⟩
    cases h
    cases e <;> simp [Channel.apply_actions]
  have happly : ∀ (c : Channel) (a : TriggerActionSet), ChannelInv c →
      ChannelInv (c.apply_actions a).1 := by
    intro c a hInv
    rcases a with ⟨n, e, dd, dc⟩
    rcases c with ⟨ce, de⟩
    cases e <;> cases dd <;> cases dc <;>
      simp [Channel.apply_actions, ChannelInv] at * <;> try exact hInv
  have hstep : ∀ (c : Channel) (op : ChannelOp), ChannelInv c → op.valid c →
      ChannelInv (c.apply_op op) := by
    intro c op hInv hvalid
    cases op with
    | fire_register_changed a =>
      exact happly c a hInv
    | fire_trigger_event a =>
      rcases a with ⟨n, e, dd, dc⟩
      rcases c with ⟨ce, de⟩
      simp only [ChannelOp.valid, trigger_actions_wf] at hvalid
      cases e <;> cases dd <;> cases dc <;> cases de <;>
        simp [Channel.apply_op, Channel.fire_trigger_event, Channel.apply_actions,
          ChannelInv] at * <;> try exact hvalid
    | tick_length_timer f a =>
      cases f
      · exact hInv
      · exact happly c a hInv
    | tick_freq_sweep f r =>
      cases f
      · exact hInv
      · cases r with
        | Nothing => exact hInv
        | DisableChannel =>
          intro h
          simp [Channel.apply_op, Channel.tick_freq_sweep] at h
        | FrequencyChanged v => exact hInv
    | tick_envelope_sweep => exact hInv
    | update cy => exact hInv
  refine ⟨by decide, hdd, hstep, ?_⟩
  intro c ops
  induction ops generalizing c with
  | nil => intro hInv _; exact hInv
  | cons op rest ih =>
    intro hInv hvalid
    exact ih (c.apply_op op) (hstep c op hInv hvalid.1) hvalid.2

/-- Witness for `channel_dac_invariant`: a concrete event sequence —
disable the DAC via a register write, trigger (components answering with a
channel-disable, as the guarantee states), then a length tick — keeps the
invariant. -/
theorem channel_dac_invariant_witness :
    ChannelInv Channel.new
    ∧ ChannelOp.valid_seq Channel.new
        [ChannelOp.fire_register_changed ⟨false, false, true, false⟩,
         ChannelOp.fire_trigger_event ⟨false, false, false, true⟩,
         ChannelOp.tick_length_timer true ⟨false, false, false, true⟩]
    ∧ ChannelInv (Channel.run_ops Channel.new
        [ChannelOp.fire_register_changed ⟨false, false, true, false⟩,
         ChannelOp.fire_trigger_event ⟨false, false, false, true⟩,
         ChannelOp.tick_length_timer true ⟨false, false, false, true⟩]) := by
  refine ⟨channel_dac_invariant.1, by decide, ?_⟩
  exact channel_dac_invariant.2.2.2 Channel.new _ channel_dac_invariant.1 (by decide)

/-- The staged opcode loops of gameboy.rs and emulator_core.rs agree. -/
theorem c8_stage_loop_eq {σ ι κ : Type} (M : CoreMachine σ ι κ) (instruction : ι) :
    ∀ (fuel : Nat) (gb : CoreState σ) (context : κ) (signals : MemoryBusSignals)
      (total : Nat),
      GameBoy.opcode_stage_loop M instruction fuel gb context signals total
        = EmulatorCore.opcode_stage_loop M instruction fuel gb context signals total := by
  intro fuel
  induction fuel with
  | zero => intro gb ctx sig tot; rfl
  | succ n ih =>
    intro gb ctx sig tot
    rw [GameBoy.opcode_stage_loop, EmulatorCore.opcode_stage_loop]
    rcases hstep : M.opcode_proc instruction gb.cpu ctx with ⟨s, ctx', res⟩
    cases res <;> simp only [hstep]
    · exact ih _ _ _ _
    · rfl

/-- The `process_next` flows of gameboy.rs and emulator_core.rs agree. -/
theorem c8_process_next_eq {σ ι κ : Type} (M : CoreMachine σ ι κ) :
    ∀ (fuel : Nat) (gb : CoreState σ),
      GameBoy.process_next M fuel gb = EmulatorCore.process_next M fuel gb := by
  intro fuel gb
  rw [GameBoy.process_next, EmulatorCore.process_next]
  cases M.is_running gb.cpu
  · rfl
  · simp only [if_true]
    rcases hh : M.handle_interrupts gb.cpu with ⟨s, r⟩
    cases r
    · simp only []
      rw [GameBoy.process_next_opcode, EmulatorCore.process_next_opcode]
      rw [c8_stage_loop_eq]
      rfl
    · rfl

/-- Claim C8: the stepping flow duplicated in gameboy.rs and the flow in
emulator_core.rs are equivalent: from equal component states, with the
same underlying CPU/MMU/peripheral operations, `update_components`,
`process_next_opcode`, `process_next` and `run_frame` all produce equal
(cycles, events) results and equal successor states. -/
theorem gameboy_core_flows_equal {σ ι κ : Type} (M : CoreMachine σ ι κ) :
    (∀ (gb : CoreState σ) (cycles : Nat),
      GameBoy.update_components M gb cycles = EmulatorCore.update_components M gb cycles)
    ∧ (∀ (fuel : Nat) (gb : CoreState σ),
      GameBoy.process_next_opcode M fuel gb = EmulatorCore.process_next_opcode M fuel gb)
    ∧ (∀ (fuel : Nat) (gb : CoreState σ),
      GameBoy.process_next M fuel gb = EmulatorCore.process_next M fuel gb)
    ∧ (∀ (loop_fuel fuel : Nat) (gb : CoreState σ),
      GameBoy.run_frame M loop_fuel fuel gb = EmulatorCore.run_frame M loop_fuel fuel gb) := by
  refine ⟨fun gb cycles => rfl, ?_, c8_process_next_eq M, ?_⟩
  · intro fuel gb
    rw [GameBoy.process_next_opcode, EmulatorCore.process_next_opcode]
    rw [c8_stage_loop_eq]
    rfl
  · have hgo : ∀ (fuel loop_fuel : Nat) (gb : CoreState σ) (acc : EmulatorUpdateResults),
        GameBoy.run_frame_go M fuel loop_fuel gb acc
          = EmulatorCore.run_frame_go M fuel loop_fuel gb acc := by
      intro fuel loop_fuel
      induction loop_fuel with
      | zero => intro gb acc; rfl
      | succ n ih =>
        intro gb acc
        rw [GameBoy.run_frame_go, EmulatorCore.run_frame_go]
        rw [c8_process_next_eq]
        rcases EmulatorCore.process_next M fuel gb with _ | ⟨gb', r⟩
        · rfl
        · simp only []
          split
          · rfl
          · split
            · rfl
            · exact ih _ _
    intro loop_fuel fuel gb
    rw [GameBoy.run_frame, EmulatorCore.run_frame, hgo]

/-- Termination of the `run_frame` loop: whenever every single step makes
progress, the loop returns within the fuel bound, performing exactly the
steps described by `RunFrameRun` and stopping at the first accumulated
result containing the frame-completed event or reaching the cycle cap. -/
theorem c2_run_frame_go_spec {σ ι κ : Type} (M : CoreMachine σ ι κ) (fuel : Nat)
    (hstep : ∀ gb : CoreState σ, ∃ gb' r,
      EmulatorCore.process_next M fuel gb = some (gb', r) ∧ 4 ≤ r.cycles) :
    ∀ (lf : Nat) (gb : CoreState σ) (acc : EmulatorUpdateResults),
      ¬ (acc.events.ppu_frame_completed = true ∨ acc.cycles ≥ CPU_CYCLES_PER_FRAME) →
      CPU_CYCLES_PER_FRAME ≤ acc.cycles + 4 * lf →
      ∃ out, EmulatorCore.run_frame_go M fuel lf gb acc = some out
        ∧ RunFrameRun M fuel gb acc out
        ∧ (out.2.events.ppu_frame_completed = true
            ∨ out.2.cycles ≥ CPU_CYCLES_PER_FRAME) := by
  intro lf
  induction lf with
  | zero =>
    intro gb acc hns hcap
    exfalso
    push_neg at hns
    simp only [CPU_CYCLES_PER_FRAME] at *
    omega
  | succ n ih =>
    intro gb acc hns hcap
    obtain ⟨gb', r, hpn, hr4⟩ := hstep gb
    by_cases hstop : ((acc.add r).events.ppu_frame_completed = true
        ∨ (acc.add r).cycles ≥ CPU_CYCLES_PER_FRAME)
    · refine ⟨(gb', acc.add r), ?_, RunFrameRun.stops _ _ _ _ hpn hstop, hstop⟩
      rw [EmulatorCore.run_frame_go, hpn]
      by_cases hf : (acc.add r).events.ppu_frame_completed = true
      · simp [hf]
      · rcases hstop with h | h
        · exact absurd h hf
        · simp [hf, h]
    · have hcap' : CPU_CYCLES_PER_FRAME ≤ (acc.add r).cycles + 4 * n := by
        simp only [EmulatorUpdateResults.add] at *
        omega
      obtain ⟨out, hgo, hrun, hout⟩ := ih gb' (acc.add r) hstop hcap'
      refine ⟨out, ?_, RunFrameRun.continues _ _ _ _ _ hpn hstop hrun, hout⟩
      rw [EmulatorCore.run_frame_go, hpn]
      push_neg at hstop
      have hf : (acc.add r).events.ppu_frame_completed = false :=
        Bool.not_eq_true _ ▸ hstop.1
      simp only [hf, Bool.false_eq_true, if_false, ge_iff_le]
      rw [if_neg (by omega)]
      exact hgo

/-- Claim C2: `run_frame` terminates for every emulator state and returns
the accumulated (cycles, events) of the steps it performed: it repeatedly
calls `process_next`, folding each step's results into the accumulator,
until the accumulated events contain the PPU frame-completed event, and
otherwise stops as soon as the accumulated cycles reach the hard cap of
70,224 cycles. The hypothesis that every single step succeeds and consumes
at least 4 cycles (one HALT idle) is the spec's stepping contract; the CPU
module deciding it is not part of the visible sources. -/
theorem run_frame_terminates_accumulates {σ ι κ : Type} (M : CoreMachine σ ι κ)
    (fuel : Nat)
    (hstep : ∀ gb : CoreState σ, ∃ gb' r,
      EmulatorCore.process_next M fuel gb = some (gb', r) ∧ 4 ≤ r.cycles) :
    ∀ gb : CoreState σ, ∃ out,
      EmulatorCore.run_frame M CPU_CYCLES_PER_FRAME fuel gb = some out
      ∧ RunFrameRun M fuel gb EmulatorUpdateResults.empty out
      ∧ (out.2.events.ppu_frame_completed = true
          ∨ out.2.cycles ≥ CPU_CYCLES_PER_FRAME) := by
  intro gb
  have h := c2_run_frame_go_spec M fuel hstep CPU_CYCLES_PER_FRAME gb
    EmulatorUpdateResults.empty (by simp [EmulatorUpdateResults.empty, DebugEvents.empty,
      CPU_CYCLES_PER_FRAME]) (by simp [EmulatorUpdateResults.empty]; omega)
  exact h

/-- Witness for `run_frame_terminates_accumulates` on `haltingMachine`:
the PPU completes a frame on the very first (4-cycle halt) step. -/
theorem run_frame_terminates_accumulates_witness :
    ∃ out, EmulatorCore.run_frame haltingMachine CPU_CYCLES_PER_FRAME 0
        { cpu := (), total_cycles := 0 } = some out
      ∧ RunFrameRun haltingMachine 0 { cpu := (), total_cycles := 0 }
          EmulatorUpdateResults.empty out
      ∧ (out.2.events.ppu_frame_completed = true
          ∨ out.2.cycles ≥ CPU_CYCLES_PER_FRAME) :=
  run_frame_terminates_accumulates haltingMachine 0
    (fun gb => ⟨{ cpu := (), total_cycles := gb.total_cycles + 4 },
      { cycles := 4,
        events := { ppu_frame_completed := true, other_bits := 0 } },
      rfl, by norm_num⟩)
    { cpu := (), total_cycles := 0 }

/-- `enter_mode` sets the mode and touches only memory and interrupt
flags besides it. -/
theorem enter_mode_fields (p : Ppu) (m : Mode) :
    (p.enter_mode m).mode = m
    ∧ (p.enter_mode m).ly = p.ly
    ∧ (p.enter_mode m).clock = p.clock
    ∧ (p.enter_mode m).current_line_pixel = p.current_line_pixel
    ∧ (p.enter_mode m).current_line_cycles = p.current_line_cycles
    ∧ (p.enter_mode m).current_scanline.window_enabled
        = p.current_scanline.window_enabled := by
  cases m <;>
    · simp only [Ppu.enter_mode, Ppu.write_u8, Ppu.request_interrupt]
      try split_ifs
      all_goals simp

/-- Entering VBlank requests the VBlank interrupt unconditionally. -/
theorem enter_mode_vblank_irq (p : Ppu) :
    (p.enter_mode Mode.VBlank).irq_vblank = true := by
  simp only [Ppu.enter_mode, Ppu.write_u8, Ppu.request_interrupt]
  try split_ifs
  all_goals rfl

theorem next_ly_advance_fields (p : Ppu) :
    (p.next_ly_advance).ly = (if p.ly = 153 then 0 else p.ly + 1)
    ∧ (p.next_ly_advance).clock = p.clock
    ∧ (p.next_ly_advance).current_line_pixel = p.current_line_pixel
    ∧ (p.next_ly_advance).current_line_cycles = p.current_line_cycles
    ∧ (p.next_ly_advance).current_scanline.window_enabled
        = p.current_scanline.window_enabled
    ∧ (p.next_ly_advance).mode = p.mode
    ∧ (p.next_ly_advance).irq_vblank = p.irq_vblank := by
  unfold Ppu.next_ly_advance Ppu.write_u8
  dsimp only
  split_ifs <;> exact ⟨rfl, rfl, rfl, rfl, rfl, rfl, rfl⟩

theorem next_ly_coincidence_fields (p : Ppu) :
    (p.next_ly_coincidence).ly = p.ly
    ∧ (p.next_ly_coincidence).clock = p.clock
    ∧ (p.next_ly_coincidence).current_line_pixel = p.current_line_pixel
    ∧ (p.next_ly_coincidence).current_line_cycles = p.current_line_cycles
    ∧ (p.next_ly_coincidence).current_scanline.window_enabled
        = p.current_scanline.window_enabled
    ∧ (p.next_ly_coincidence).mode = p.mode
    ∧ (p.next_ly_coincidence).irq_vblank = p.irq_vblank := by
  unfold Ppu.next_ly_coincidence Ppu.write_u8 Ppu.request_interrupt
  dsimp only
  split_ifs <;> exact ⟨rfl, rfl, rfl, rfl, rfl, rfl, rfl⟩

theorem next_ly_spec (p : Ppu) (h : p.ly ≤ 153) :
    ∃ q st, p.next_ly = some (q, st)
      ∧ q.ly = (if p.ly = 153 then 0 else p.ly + 1)
      ∧ q.clock = p.clock
      ∧ q.current_line_pixel = p.current_line_pixel
      ∧ q.current_line_cycles = p.current_line_cycles
      ∧ q.current_scanline.window_enabled = p.current_scanline.window_enabled
      ∧ (st = FrameState.FrameCompleted ↔ q.ly = 0)
      ∧ q.mode = (if q.ly ≤ 143 then Mode.OamScan
          else if q.ly = 144 then Mode.VBlank else p.mode)
      ∧ (q.ly = 144 → q.irq_vblank = true) := by
  obtain ⟨ha_ly, ha_clock, ha_pixel, ha_cycles, ha_window, ha_mode, ha_irq⟩ :=
    next_ly_advance_fields p
  obtain ⟨hc_ly, hc_clock, hc_pixel, hc_cycles, hc_window, hc_mode, hc_irq⟩ :=
    next_ly_coincidence_fields p.next_ly_advance
  set p2 := (p.next_ly_advance).next_ly_coincidence with hp2
  have hly2 : p2.ly = (if p.ly = 153 then 0 else p.ly + 1) := by rw [hc_ly, ha_ly]
  have hclock2 : p2.clock = p.clock := by rw [hc_clock, ha_clock]
  have hpixel2 : p2.current_line_pixel = p.current_line_pixel := by rw [hc_pixel, ha_pixel]
  have hcycles2 : p2.current_line_cycles = p.current_line_cycles := by rw [hc_cycles, ha_cycles]
  have hwindow2 : p2.current_scanline.window_enabled = p.current_scanline.window_enabled := by
    rw [hc_window, ha_window]
  have hmode2 : p2.mode = p.mode := by rw [hc_mode, ha_mode]
  unfold Ppu.next_ly
  dsimp only
  rw [← hp2]
  by_cases h153 : p.ly = 153
  · have h0 : p2.ly = 0 := by rw [hly2, if_pos h153]
    obtain ⟨hE_mode, hE_ly, hE_clock, hE_pixel, hE_cycles, hE_window⟩ :=
      enter_mode_fields p2 Mode.OamScan
    rw [if_pos (by rw [h0]; omega)]
    rw [Option.map_some']
    rw [if_pos (by rw [hE_ly, h0])]
    refine ⟨_, _, rfl, ?_, ?_, ?_, ?_, ?_, ?_, ?_, ?_⟩
    · show ((p2.enter_mode Mode.OamScan).on_new_frame).ly = _
      rw [if_pos h153]
      show (p2.enter_mode Mode.OamScan).ly = 0
      rw [hE_ly, h0]
    · show ((p2.enter_mode Mode.OamScan).on_new_frame).clock = p.clock
      show (p2.enter_mode Mode.OamScan).clock = p.clock
      rw [hE_clock, hclock2]
    · show (p2.enter_mode Mode.OamScan).current_line_pixel = _
      rw [hE_pixel, hpixel2]
    · show (p2.enter_mode Mode.OamScan).current_line_cycles = _
      rw [hE_cycles, hcycles2]
    · show (p2.enter_mode Mode.OamScan).current_scanline.window_enabled = _
      rw [hE_window, hwindow2]
    · constructor
      · intro _
        show (p2.enter_mode Mode.OamScan).ly = 0
        rw [hE_ly, h0]
      · intro _; rfl
    · show (p2.enter_mode Mode.OamScan).mode = _
      have hqly : ((p2.enter_mode Mode.OamScan).on_new_frame).ly = 0 := by
        show (p2.enter_mode Mode.OamScan).ly = 0
        rw [hE_ly, h0]
      rw [hqly, hE_mode]
      norm_num
    · intro hcon
      have : ((p2.enter_mode Mode.OamScan).on_new_frame).ly = 0 := by
        show (p2.enter_mode Mode.OamScan).ly = 0
        rw [hE_ly, h0]
      omega
  · have h1 : p2.ly = p.ly + 1 := by rw [hly2, if_neg h153]
    by_cases hle : p.ly + 1 ≤ 143
    · obtain ⟨hE_mode, hE_ly, hE_clock, hE_pixel, hE_cycles, hE_window⟩ :=
        enter_mode_fields p2 Mode.OamScan
      rw [if_pos (by rw [h1]; omega)]
      rw [Option.map_some']
      rw [if_neg (by rw [hE_ly, h1]; omega)]
      refine ⟨_, _, rfl, ?_, ?_, ?_, ?_, ?_, ?_, ?_, ?_⟩
      · rw [if_neg h153, hE_ly, h1]
      · rw [hE_clock, hclock2]
      · rw [hE_pixel, hpixel2]
      · rw [hE_cycles, hcycles2]
      · rw [hE_window, hwindow2]
      · constructor
        · intro hst; exact absurd hst (by simp)
        · intro hst; rw [hE_ly, h1] at hst; omega
      · rw [hE_ly, h1, if_pos hle, hE_mode]
      · intro hcon; rw [hE_ly, h1] at hcon; omega
    · by_cases h144 : p.ly + 1 = 144
      · obtain ⟨hE_mode, hE_ly, hE_clock, hE_pixel, hE_cycles, hE_window⟩ :=
          enter_mode_fields p2 Mode.VBlank
        rw [if_neg (by rw [h1]; omega), if_pos (by rw [h1]; omega)]
        rw [Option.map_some']
        rw [if_neg (by rw [hE_ly, h1]; omega)]
        refine ⟨_, _, rfl, ?_, ?_, ?_, ?_, ?_, ?_, ?_, ?_⟩
        · rw [if_neg h153, hE_ly, h1]
        · rw [hE_clock, hclock2]
        · rw [hE_pixel, hpixel2]
        · rw [hE_cycles, hcycles2]
        · rw [hE_window, hwindow2]
        · constructor
          · intro hst; exact absurd hst (by simp)
          · intro hst; rw [hE_ly, h1] at hst; omega
        · rw [hE_ly, h1, if_neg (by omega), if_pos h144, hE_mode]
        · intro _; exact enter_mode_vblank_irq p2
      · have hrange : p.ly + 1 ≤ 153 := by omega
        rw [if_neg (by rw [h1]; omega), if_neg (by rw [h1]; omega),
          if_pos (by rw [h1]; omega)]
        rw [Option.map_some']
        rw [if_neg (by rw [h1]; omega)]
        refine ⟨_, _, rfl, ?_, ?_, ?_, ?_, ?_, ?_, ?_, ?_⟩
        · rw [if_neg h153, h1]
        · exact hclock2
        · exact hpixel2
        · exact hcycles2
        · exact hwindow2
        · constructor
          · intro hst; exact absurd hst (by simp)
          · intro hst; rw [h1] at hst; omega
        · rw [h1, if_neg (by omega), if_neg (by omega), hmode2]
        · intro hcon; rw [h1] at hcon; omega


theorem draw_pixel_fields (be we se : Bool) (ts : TileSet) (pb p0 p1 wx wy lcdc : Nat)
    (p : Ppu) :
    (Ppu.draw_pixel be we se ts pb p0 p1 wx wy lcdc p).current_line_pixel
        = p.current_line_pixel + 1
    ∧ (Ppu.draw_pixel be we se ts pb p0 p1 wx wy lcdc p).clock = p.clock
    ∧ (Ppu.draw_pixel be we se ts pb p0 p1 wx wy lcdc p).ly = p.ly
    ∧ (Ppu.draw_pixel be we se ts pb p0 p1 wx wy lcdc p).current_line_cycles
        = p.current_line_cycles
    ∧ (Ppu.draw_pixel be we se ts pb p0 p1 wx wy lcdc p).mode = p.mode := by
  unfold Ppu.draw_pixel
  dsimp only
  split
  · exact ⟨rfl, rfl, rfl, rfl, rfl⟩
  · exact ⟨rfl, rfl, rfl, rfl, rfl⟩

theorem draw_pixel_iterate (be we se : Bool) (ts : TileSet) (pb p0 p1 wx wy lcdc : Nat) :
    ∀ (n : Nat) (p : Ppu),
      ((Ppu.draw_pixel be we se ts pb p0 p1 wx wy lcdc)^[n] p).current_line_pixel
          = p.current_line_pixel + n
      ∧ ((Ppu.draw_pixel be we se ts pb p0 p1 wx wy lcdc)^[n] p).clock = p.clock
      ∧ ((Ppu.draw_pixel be we se ts pb p0 p1 wx wy lcdc)^[n] p).ly = p.ly
      ∧ ((Ppu.draw_pixel be we se ts pb p0 p1 wx wy lcdc)^[n] p).current_line_cycles
          = p.current_line_cycles
      ∧ ((Ppu.draw_pixel be we se ts pb p0 p1 wx wy lcdc)^[n] p).mode = p.mode := by
  intro n
  induction n with
  | zero => intro p; exact ⟨rfl, rfl, rfl, rfl, rfl⟩
  | succ k ih =>
    intro p
    obtain ⟨i1, i2, i3, i4, i5⟩ := ih (Ppu.draw_pixel be we se ts pb p0 p1 wx wy lcdc p)
    obtain ⟨d1, d2, d3, d4, d5⟩ := draw_pixel_fields be we se ts pb p0 p1 wx wy lcdc p
    rw [Function.iterate_succ_apply]
    refine ⟨?_, ?_, ?_, ?_, ?_⟩
    · rw [i1, d1]; omega
    · rw [i2, d2]
    · rw [i3, d3]
    · rw [i4, d4]
    · rw [i5, d5]

theorem process_oam_scan_inv (p : Ppu) (hInv : PpuInv p) :
    ∃ q, p.process_oam_scan = some (q, FrameState.Processing) ∧ PpuInv q := by
  obtain ⟨hly, hpix, hdraw, hhb⟩ := hInv
  unfold Ppu.process_oam_scan
  dsimp only
  split_ifs with h80
  · set pm := { p with clock := p.clock - 80 } with hpm
    set p1 := { pm with
      current_scanline := pm.do_oam_scan_for_line pm.ly
      current_line_pixel := 0
      current_line_cycles := 80 } with hp1
    obtain ⟨hE_mode, hE_ly, hE_clock, hE_pixel, hE_cycles, hE_window⟩ :=
      enter_mode_fields p1 Mode.DrawLine
    refine ⟨_, rfl, ?_, ?_, ?_, ?_⟩
    · rw [hE_ly]; exact hly
    · rw [hE_pixel]; show (0 : Nat) ≤ SCREEN_W; omega
    · intro _
      rw [hE_cycles, hE_pixel, hp1]
      simp
    · intro hcon
      rw [hE_mode] at hcon
      exact absurd hcon (by simp)
  · exact ⟨p, rfl, hly, hpix, hdraw, hhb⟩

theorem process_draw_line_inv (p : Ppu) (hInv : PpuInv p) (hmode : p.mode = Mode.DrawLine) :
    ∃ q, p.process_draw_line = some (q, FrameState.Processing) ∧ PpuInv q := by
  obtain ⟨hly, hpix, hdraw, hhb⟩ := hInv
  have hlc := hdraw hmode
  unfold Ppu.process_draw_line
  dsimp only
  set ptu := min (p.clock / 2) (SCREEN_W - p.current_line_pixel) with hptu
  have hptu_le : ptu ≤ SCREEN_W - p.current_line_pixel := min_le_right _ _
  split_ifs with hzero hdone
  · exact ⟨p, rfl, hly, hpix, hdraw, hhb⟩
  · set pc := { p with
      current_line_cycles := p.current_line_cycles + ptu * 2
      clock := p.clock - ptu * 2 } with hpc
    obtain ⟨i1, i2, i3, i4, i5⟩ := draw_pixel_iterate (get_bit pc.get_lcdc 0)
      (get_bit pc.get_lcdc 5) (get_bit pc.get_lcdc 1)
      (TileSet.by_select_bit (get_bit pc.get_lcdc 4))
      (pc.read_u8 MEMORY_LOCATION_PALETTE_BG) (pc.read_u8 MEMORY_LOCATION_PALETTE_OBP0)
      (pc.read_u8 MEMORY_LOCATION_PALETTE_OBP1) pc.get_window_x pc.get_window_y
      pc.get_lcdc ptu pc
    obtain ⟨hE_mode, hE_ly, hE_clock, hE_pixel, hE_cycles, hE_window⟩ :=
      enter_mode_fields _ Mode.HBlank
    refine ⟨_, rfl, ?_, ?_, ?_, ?_⟩
    · rw [hE_ly, i3]; exact hly
    · rw [hE_pixel, i1]; show pc.current_line_pixel + ptu ≤ SCREEN_W
      have : pc.current_line_pixel = p.current_line_pixel := rfl
      omega
    · intro hcon
      rw [hE_mode] at hcon
      exact absurd hcon (by simp)
    · intro _
      rw [hE_cycles, i4]
      show pc.current_line_cycles ≤ CPU_CYCLES_PER_LINE
      have : pc.current_line_cycles = p.current_line_cycles + ptu * 2 := rfl
      rw [this, hlc]
      simp only [SCREEN_W, CPU_CYCLES_PER_LINE] at *
      omega
  · set pc := { p with
      current_line_cycles := p.current_line_cycles + ptu * 2
      clock := p.clock - ptu * 2 } with hpc
    obtain ⟨i1, i2, i3, i4, i5⟩ := draw_pixel_iterate (get_bit pc.get_lcdc 0)
      (get_bit pc.get_lcdc 5) (get_bit pc.get_lcdc 1)
      (TileSet.by_select_bit (get_bit pc.get_lcdc 4))
      (pc.read_u8 MEMORY_LOCATION_PALETTE_BG) (pc.read_u8 MEMORY_LOCATION_PALETTE_OBP0)
      (pc.read_u8 MEMORY_LOCATION_PALETTE_OBP1) pc.get_window_x pc.get_window_y
      pc.get_lcdc ptu pc
    refine ⟨_, rfl, ?_, ?_, ?_, ?_⟩
    · rw [i3]; exact hly
    · rw [i1]; show pc.current_line_pixel + ptu ≤ SCREEN_W
      have : pc.current_line_pixel = p.current_line_pixel := rfl
      omega
    · intro _
      rw [i4, i1]
      show pc.current_line_cycles = 80 + 2 * (pc.current_line_pixel + ptu)
      have h1 : pc.current_line_cycles = p.current_line_cycles + ptu * 2 := rfl
      have h2 : pc.current_line_pixel = p.current_line_pixel := rfl
      rw [h1, h2, hlc]
      ring
    · intro hcon
      rw [i5] at hcon
      have : pc.mode = p.mode := rfl
      rw [this, hmode] at hcon
      exact absurd hcon (by simp)

theorem process_hblank_spec (p : Ppu) :
    (p.clock < CPU_CYCLES_PER_LINE - p.current_line_cycles →
      p.process_hblank = some (p, FrameState.Processing))
    ∧ (CPU_CYCLES_PER_LINE - p.current_line_cycles ≤ p.clock →
      p.process_hblank = Ppu.next_ly
        { p with clock := p.clock - (CPU_CYCLES_PER_LINE - p.current_line_cycles) }) := by
  unfold Ppu.process_hblank
  constructor
  · intro hlt
    rw [if_neg (by omega)]
  · intro hge
    rw [if_pos (by omega)]

theorem process_vblank_spec (p : Ppu) :
    (p.clock < CPU_CYCLES_PER_LINE →
      p.process_vblank = some (p, FrameState.Processing))
    ∧ (CPU_CYCLES_PER_LINE ≤ p.clock →
      p.process_vblank = Ppu.next_ly { p with clock := p.clock - CPU_CYCLES_PER_LINE }) := by
  unfold Ppu.process_vblank
  constructor
  · intro hlt
    rw [if_neg (by omega)]
  · intro hge
    rw [if_pos (by omega)]

theorem next_ly_inv (p : Ppu) (hInv : PpuInv p)
    (hmode : p.mode = Mode.HBlank ∨ p.mode = Mode.VBlank) :
    ∃ q st, p.next_ly = some (q, st) ∧ PpuInv q
      ∧ (st = FrameState.FrameCompleted → q.ly = 0 ∧ q.mode = Mode.OamScan) := by
  obtain ⟨hly, hpix, hdraw, hhb⟩ := hInv
  obtain ⟨q, st, heq, hqly, hqclock, hqpixel, hqcycles, hqwindow, hqst, hqmode, hqirq⟩ :=
    next_ly_spec p hly
  refine ⟨q, st, heq, ⟨?_, ?_, ?_, ?_⟩, ?_⟩
  · rw [hqly]; split_ifs <;> omega
  · rw [hqpixel]; exact hpix
  · intro hcon
    rw [hqmode] at hcon
    split_ifs at hcon
    all_goals try exact absurd hcon (by decide)
    rcases hmode with hm | hm <;> rw [hm] at hcon <;> exact absurd hcon (by decide)
  · intro hcon
    rw [hqmode] at hcon
    split_ifs at hcon
    all_goals try exact absurd hcon (by decide)
    rcases hmode with hm | hm
    · rw [hqcycles]; exact hhb hm
    · rw [hm] at hcon; exact absurd hcon (by decide)
  · intro hst
    have h0 : q.ly = 0 := hqst.mp hst
    refine ⟨h0, ?_⟩
    rw [hqmode, h0]
    norm_num

theorem process_hblank_inv (p : Ppu) (hInv : PpuInv p) (hmode : p.mode = Mode.HBlank) :
    ∃ q st, p.process_hblank = some (q, st) ∧ PpuInv q
      ∧ (st = FrameState.FrameCompleted → q.ly = 0 ∧ q.mode = Mode.OamScan) := by
  obtain ⟨hly, hpix, hdraw, hhb⟩ := hInv
  obtain ⟨h1, h2⟩ := process_hblank_spec p
  by_cases hc : p.clock < CPU_CYCLES_PER_LINE - p.current_line_cycles
  · refine ⟨p, FrameState.Processing, h1 hc, ⟨hly, hpix, hdraw, hhb⟩, ?_⟩
    intro hcon; exact absurd hcon (by simp)
  · rw [h2 (by omega)]
    exact next_ly_inv _ ⟨hly, hpix, hdraw, hhb⟩ (Or.inl hmode)

theorem process_vblank_inv (p : Ppu) (hInv : PpuInv p) (hmode : p.mode = Mode.VBlank) :
    ∃ q st, p.process_vblank = some (q, st) ∧ PpuInv q
      ∧ (st = FrameState.FrameCompleted → q.ly = 0 ∧ q.mode = Mode.OamScan) := by
  obtain ⟨hly, hpix, hdraw, hhb⟩ := hInv
  obtain ⟨h1, h2⟩ := process_vblank_spec p
  by_cases hc : p.clock < CPU_CYCLES_PER_LINE
  · refine ⟨p, FrameState.Processing, h1 hc, ⟨hly, hpix, hdraw, hhb⟩, ?_⟩
    intro hcon; exact absurd hcon (by simp)
  · rw [h2 (by omega)]
    exact next_ly_inv _ ⟨hly, hpix, hdraw, hhb⟩ (Or.inr hmode)

theorem ppu_update_inv (p : Ppu) (cycles : Nat) (hInv : PpuInv p) :
    ∃ q st, p.update cycles = some (q, st) ∧ PpuInv q
      ∧ (st = FrameState.FrameCompleted → q.ly = 0 ∧ q.mode = Mode.OamScan) := by
  obtain ⟨hly, hpix, hdraw, hhb⟩ := hInv
  unfold Ppu.update
  dsimp only
  rcases hm : p.mode with _ | _ | _ | _
  all_goals simp only [hm]
  · exact process_hblank_inv
      { p with clock := p.clock + cycles, mode := Mode.HBlank }
      ⟨hly, hpix, fun hcon => Mode.noConfusion hcon, fun _ => hhb hm⟩ rfl
  · exact process_vblank_inv
      { p with clock := p.clock + cycles, mode := Mode.VBlank }
      ⟨hly, hpix, fun hcon => Mode.noConfusion hcon, fun hcon => Mode.noConfusion hcon⟩ rfl
  · obtain ⟨q, heq, hq⟩ := process_oam_scan_inv
      { p with clock := p.clock + cycles, mode := Mode.OamScan }
      ⟨hly, hpix, fun hcon => Mode.noConfusion hcon, fun hcon => Mode.noConfusion hcon⟩
    exact ⟨q, FrameState.Processing, heq, hq, fun hcon => FrameState.noConfusion hcon⟩
  · obtain ⟨q, heq, hq⟩ := process_draw_line_inv
      { p with clock := p.clock + cycles, mode := Mode.DrawLine }
      ⟨hly, hpix, fun _ => hdraw hm, fun hcon => Mode.noConfusion hcon⟩ rfl
    exact ⟨q, FrameState.Processing, heq, hq, fun hcon => FrameState.noConfusion hcon⟩

theorem ppu_scanline_456_and_ly_wrap :
    (∀ mem : Nat → Nat, PpuInv (Ppu.new mem))
    ∧ (∀ (p : Ppu) (cycles : Nat), PpuInv p →
        ∃ q st, p.update cycles = some (q, st) ∧ PpuInv q
          ∧ (st = FrameState.FrameCompleted → q.ly = 0 ∧ q.mode = Mode.OamScan))
    ∧ (∀ p : Ppu, p.current_line_cycles ≤ CPU_CYCLES_PER_LINE →
        (p.clock + p.current_line_cycles < CPU_CYCLES_PER_LINE →
          p.process_hblank = some (p, FrameState.Processing))
        ∧ (CPU_CYCLES_PER_LINE ≤ p.clock + p.current_line_cycles →
          p.process_hblank = Ppu.next_ly
            { p with clock := p.clock + p.current_line_cycles - CPU_CYCLES_PER_LINE }))
    ∧ (∀ p : Ppu,
        (p.clock < CPU_CYCLES_PER_LINE →
          p.process_vblank = some (p, FrameState.Processing))
        ∧ (CPU_CYCLES_PER_LINE ≤ p.clock →
          p.process_vblank = Ppu.next_ly { p with clock := p.clock - CPU_CYCLES_PER_LINE }))
    ∧ (∀ p : Ppu, p.ly = 143 →
        ∃ q st, p.next_ly = some (q, st) ∧ q.ly = 144 ∧ q.mode = Mode.VBlank
          ∧ q.irq_vblank = true ∧ st = FrameState.Processing)
    ∧ (∀ p : Ppu, p.ly = 153 →
        ∃ q st, p.next_ly = some (q, st) ∧ q.ly = 0 ∧ q.mode = Mode.OamScan
          ∧ st = FrameState.FrameCompleted)
    ∧ (∀ (p q : Ppu) (st : FrameState), p.ly ≤ 153 → p.next_ly = some (q, st) →
        q.ly ≤ 153 ∧ (st = FrameState.FrameCompleted ↔ q.ly = 0)) := by
  refine ⟨?_, ppu_update_inv, ?_, process_vblank_spec, ?_, ?_, ?_⟩
  · intro mem
    exact ⟨Nat.zero_le _, Nat.zero_le _,
      fun h => Mode.noConfusion h, fun h => Mode.noConfusion h⟩
  · intro p hlc
    obtain ⟨h1, h2⟩ := process_hblank_spec p
    constructor
    · intro hlt
      exact h1 (by omega)
    · intro hge
      rw [h2 (by omega)]
      have : p.clock - (CPU_CYCLES_PER_LINE - p.current_line_cycles)
          = p.clock + p.current_line_cycles - CPU_CYCLES_PER_LINE := by omega
      rw [this]
  · intro p h143
    obtain ⟨q, st, heq, hqly, hqclock, hqpixel, hqcycles, hqwindow, hqst, hqmode, hqirq⟩ :=
      next_ly_spec p (by omega)
    have hq144 : q.ly = 144 := by rw [hqly, if_neg (by omega), h143]
    refine ⟨q, st, heq, hq144, ?_, hqirq hq144, ?_⟩
    · rw [hqmode, hq144]
      norm_num
    · cases st with
      | Processing => rfl
      | FrameCompleted =>
        have := hqst.mp rfl
        omega
  · intro p h153
    obtain ⟨q, st, heq, hqly, hqclock, hqpixel, hqcycles, hqwindow, hqst, hqmode, hqirq⟩ :=
      next_ly_spec p (by omega)
    have hq0 : q.ly = 0 := by rw [hqly, if_pos h153]
    refine ⟨q, st, heq, hq0, ?_, hqst.mpr hq0⟩
    rw [hqmode, hq0]
    norm_num
  · intro p q st hly heq
    obtain ⟨q', st', heq', hqly, hqclock, hqpixel, hqcycles, hqwindow, hqst, hqmode, hqirq⟩ :=
      next_ly_spec p hly
    rw [heq] at heq'
    obtain ⟨hq, hst⟩ : q = q' ∧ st = st' := by
      have := Option.some.inj heq'
      exact ⟨congrArg Prod.fst this, congrArg Prod.snd this⟩
    subst hq
    subst hst
    constructor
    · rw [hqly]; split_ifs <;> omega
    · exact hqst

theorem ppu_scanline_456_witness :
    PpuInv (Ppu.new (fun _ => 0))
    ∧ (∃ q st, (Ppu.new (fun _ => 0)).update 100 = some (q, st) ∧ PpuInv q
        ∧ (st = FrameState.FrameCompleted → q.ly = 0 ∧ q.mode = Mode.OamScan))
    ∧ (∃ q st, ({ Ppu.new (fun _ => 0) with ly := 153 }).next_ly = some (q, st)
        ∧ q.ly = 0 ∧ q.mode = Mode.OamScan ∧ st = FrameState.FrameCompleted) :=
  ⟨ppu_scanline_456_and_ly_wrap.1 _,
   ppu_scanline_456_and_ly_wrap.2.1 _ 100 (ppu_scanline_456_and_ly_wrap.1 _),
   ppu_scanline_456_and_ly_wrap.2.2.2.2.2.1 _ rfl⟩

theorem oam_scan_go_eq (f : Nat → Sprite) (accept : Sprite → Bool) :
    ∀ (r idx : Nat) (acc : List Sprite), acc.length < 10 →
      oam_scan_go f accept idx r acc
        = acc ++ (((List.range' idx r).map f).filter accept).take (10 - acc.length) := by
  intro r
  induction r with
  | zero =>
    intro idx acc hlen
    simp [oam_scan_go]
  | succ k ih =>
    intro idx acc hlen
    rw [List.range'_succ, oam_scan_go]
    simp only [List.map_cons]
    have hlen1 : (acc ++ [f idx]).length = acc.length + 1 := by simp
    by_cases hacc : accept (f idx)
    · have hfc : List.filter accept (f idx :: (List.range' (idx + 1) k).map f)
          = f idx :: List.filter accept ((List.range' (idx + 1) k).map f) := by
        rw [List.filter_cons, if_pos hacc]
      rw [if_pos hacc, hfc]
      by_cases hfull : (acc ++ [f idx]).length ≥ 10
      · rw [if_pos hfull]
        have h10 : 10 - acc.length = 1 := by omega
        rw [h10]
        simp
      · rw [if_neg hfull]
        rw [ih (idx + 1) (acc ++ [f idx]) (by omega)]
        have hpos : 10 - acc.length = (10 - (acc ++ [f idx]).length) + 1 := by omega
        rw [hpos, List.take_succ_cons, List.append_assoc]
        rfl
    · have hfc : List.filter accept (f idx :: (List.range' (idx + 1) k).map f)
          = List.filter accept ((List.range' (idx + 1) k).map f) := by
        rw [List.filter_cons, if_neg (by simpa using hacc)]
      rw [if_neg hacc, hfc]
      exact ih (idx + 1) acc hlen

theorem orderedInsert_filter_eq (v : Nat) (a : Sprite) (ha : a.pos_x = v) :
    ∀ l : List Sprite,
      (l.orderedInsert spriteLe a).filter (fun s => decide (s.pos_x = v))
        = a :: l.filter (fun s => decide (s.pos_x = v)) := by
  intro l
  induction l with
  | nil => simp [List.orderedInsert, ha]
  | cons b l ih =>
    rw [List.orderedInsert]
    by_cases hle : spriteLe a b
    · rw [if_pos hle]
      simp [ha]
    · rw [if_neg hle]
      have hbv : ¬ (b.pos_x = v) := by
        simp only [spriteLe] at hle
        omega
      rw [List.filter_cons, List.filter_cons, if_neg (by simpa using hbv),
        if_neg (by simpa using hbv)]
      exact ih

theorem orderedInsert_filter_ne (v : Nat) (a : Sprite) (ha : ¬ a.pos_x = v) :
    ∀ l : List Sprite,
      (l.orderedInsert spriteLe a).filter (fun s => decide (s.pos_x = v))
        = l.filter (fun s => decide (s.pos_x = v)) := by
  intro l
  induction l with
  | nil => simp [List.orderedInsert, ha]
  | cons b l ih =>
    rw [List.orderedInsert]
    by_cases hle : spriteLe a b
    · rw [if_pos hle]
      simp [ha]
    · rw [if_neg hle]
      rw [List.filter_cons, List.filter_cons]
      by_cases hbv : b.pos_x = v
      · rw [if_pos (by simpa using hbv), if_pos (by simpa using hbv), ih]
      · rw [if_neg (by simpa using hbv), if_neg (by simpa using hbv)]
        exact ih

theorem insertionSort_filter_stable (v : Nat) :
    ∀ l : List Sprite,
      (l.insertionSort spriteLe).filter (fun s => decide (s.pos_x = v))
        = l.filter (fun s => decide (s.pos_x = v)) := by
  intro l
  induction l with
  | nil => rfl
  | cons a l ih =>
    rw [List.insertionSort]
    by_cases ha : a.pos_x = v
    · rw [orderedInsert_filter_eq v a ha, ih, List.filter_cons,
        if_pos (by simpa using ha)]
    · rw [orderedInsert_filter_ne v a ha, ih, List.filter_cons,
        if_neg (by simpa using ha)]

/-- C5 (counterexample): a sprite whose y-range intersects the scanline but
whose `pos_x` is zero is NOT selected by the OAM scan, contradicting the
claim that intersection of the y-range alone selects a sprite. With OAM
entry 0 having `pos_y = 16`, `pos_x = 0`, line 0 intersects its y-range
(16 ≤ 16 < 24 at sprite height 8), yet the scan returns no sprites. -/
theorem oam_scan_pos_x_zero_dropped :
    (wadd8 0 16 ≥ (Sprite.from_oam (fun a => if a = 0xfe00 then 16 else 0) 0).pos_y
      ∧ wadd8 0 16 < wadd8 (Sprite.from_oam (fun a => if a = 0xfe00 then 16 else 0) 0).pos_y 8)
    ∧ ((Ppu.new (fun a => if a = 0xfe00 then 16 else 0)).do_oam_scan_for_line 0).sprites_found
        = 0 := by
  decide

/-- C5 (amended): for every PPU state and scanline, the OAM scan enumerates
all 40 OAM entries and selects, in OAM order, up to 10 sprites that are
on-screen in x (`pos_x > 0`) and whose y-range (height 8 or 16 per LCDC
bit 2) intersects the line; the selected sprites are then sorted stably by
x ascending (equal x keeping OAM order), and the resulting scanline buffer
never holds more than 10 sprites. -/
theorem oam_scan_characterization (p : Ppu) (line_number : Nat) :
    let sd := p.do_oam_scan_for_line line_number
    let sel := spec_oam_selection p.mem_bytes line_number
        (if get_bit p.get_lcdc 2 then 16 else 8)
    sd.line = line_number
      ∧ sd.sprites_found ≤ 10
      ∧ sd.sprites.Perm sel
      ∧ sd.sprites.Sorted spriteLe
      ∧ ∀ v : Nat, sd.sprites.filter (fun s => decide (s.pos_x = v))
          = sel.filter (fun s => decide (s.pos_x = v)) := by
  dsimp only
  have hsel : spec_oam_selection p.mem_bytes line_number
      (if get_bit p.get_lcdc 2 then 16 else 8)
      = (((List.range' 0 40).map (Sprite.from_oam p.mem_bytes)).filter
          (oam_accepts (wadd8 line_number 16)
            (if get_bit p.get_lcdc 2 then 16 else 8))).take 10 := by
    rw [spec_oam_selection, List.range_eq_range']
  have hfound : (p.do_oam_scan_for_line line_number).sprites
      = ((((List.range' 0 40).map (Sprite.from_oam p.mem_bytes)).filter
          (oam_accepts (wadd8 line_number 16)
            (if get_bit p.get_lcdc 2 then 16 else 8))).take 10).insertionSort spriteLe := by
    rw [Ppu.do_oam_scan_for_line]
    dsimp only
    rw [oam_scan_go_eq _ _ 40 0 [] (by decide)]
    simp
  refine ⟨rfl, ?_, ?_, ?_, ?_⟩
  · rw [ScanlineData.sprites_found, hfound]
    have hperm := List.perm_insertionSort spriteLe
      ((((List.range' 0 40).map (Sprite.from_oam p.mem_bytes)).filter
          (oam_accepts (wadd8 line_number 16)
            (if get_bit p.get_lcdc 2 then 16 else 8))).take 10)
    rw [hperm.length_eq, List.length_take]
    omega
  · rw [hfound, hsel]
    exact List.perm_insertionSort spriteLe _
  · rw [hfound]
    exact List.sorted_insertionSort spriteLe _
  · intro v
    rw [hfound, hsel]
    exact insertionSort_filter_stable v _
